import Mathlib

/-!
Verification development for the templ_invest OSINT collection and
normalization pipeline.

The definitions below are a shallow embedding of the Python sources
`src/execution/ingest_elastic.py`,
`src/execution/telegram_niemci_de4ru_osint.py`,
`src/execution/telegram_phone_number_search.py`,
`src/execution/telegram_niemci_extended_search.py`, and
`src/execution/telegram_extended_recruitment_berlin_2025.py`.

Conventions used throughout the embedding:
* machine integers are `Nat`/`Int` with explicit reductions modulo `2 ^ 32`
  where the source relies on 32-bit arithmetic (SHA-256 only);
* Python code that can raise is embedded as `Except PyErr`;
* external collaborators (the Telegram client, the Elasticsearch
  connection, the filesystem walk) are passed in as explicit pure
  parameters, the usual explicit-state reading of the network calls;
* `datetime.now()` values are passed as explicit `now` parameters;
  message timestamps are modelled as `Int` epoch values.
-/

namespace TemplInvest

/-! ### Character and string helpers (Python `str` operations) -/

/-- Python `str.lower` restricted to the alphabets the sources use:
ASCII, the Latin-1 letter block, and Cyrillic (with Ё).  Characters
outside these ranges are left unchanged. -/
def lowerChar (c : Char) : Char :=
  let n := c.toNat
  if 65 ≤ n ∧ n ≤ 90 then Char.ofNat (n + 32)
  else if 192 ≤ n ∧ n ≤ 222 ∧ n ≠ 215 then Char.ofNat (n + 32)
  else if 1040 ≤ n ∧ n ≤ 1071 then Char.ofNat (n + 32)
  else if 1024 ≤ n ∧ n ≤ 1039 then Char.ofNat (n + 80)
  else c

/-- Python `str.upper` restricted to ASCII (the sources only upper-case
exception texts before looking for the substring "FLOOD"). -/
def upperChar (c : Char) : Char :=
  let n := c.toNat
  if 97 ≤ n ∧ n ≤ 122 then Char.ofNat (n - 32) else c

/-- `text.lower()`. -/
def pyLower (s : String) : String := String.mk (s.data.map lowerChar)

/-- `text.upper()`. -/
def pyUpper (s : String) : String := String.mk (s.data.map upperChar)

/-- Does `needle` occur at the head of `hay`? -/
def headMatch : List Char → List Char → Bool
  | [], _ => true
  | _ :: _, [] => false
  | n :: ns, h :: hs => n == h && headMatch ns hs

/-- Does `needle` occur anywhere in `hay`?  (Python `needle in hay`.) -/
def subList (needle hay : List Char) : Bool :=
  match hay with
  | [] => headMatch needle []
  | _ :: hs => headMatch needle hay || subList needle hs

/-- Python substring containment `needle in hay` on strings. -/
def strContains (hay needle : String) : Bool := subList needle.data hay.data

/-- ASCII decimal digit test (Python `\d` on the texts in scope). -/
def isDigitChar (c : Char) : Bool := 48 ≤ c.toNat && c.toNat ≤ 57

/-- `re.sub(r'\D', '', text)`: keep only the digits. -/
def onlyDigits (s : String) : String := String.mk (s.data.filter isDigitChar)

/-- Number of occurrences of the character `c` (Python `text.count(c)`
for a single-character needle). -/
def countChar (s : String) (c : Char) : Nat := s.data.count c

/-! ### SHA-256 over `Nat`, byte lists in, hex digest out

Faithful embedding of `hashlib.sha256(....encode('utf-8')).hexdigest()`
(`generate_doc_id` in `ingest_elastic.py` and `compute_doc_id` in the
Telegram probes).  All words are `Nat` reduced modulo `2 ^ 32`. -/

/-- Truncate to a 32-bit word. -/
def w32 (n : Nat) : Nat := n % 4294967296

/-- 32-bit rotate right. -/
def rotr (n x : Nat) : Nat := w32 ((x >>> n) ||| (x <<< (32 - n)))

/-- SHA-256 round constants (FIPS 180-4, written in decimal). -/
def sha256K : List Nat :=
  [1116352408, 1899447441, 3049323471, 3921009573, 961987163, 1508970993,
   2453635748, 2870763221, 3624381080, 310598401, 607225278, 1426881987,
   1925078388, 2162078206, 2614888103, 3248222580, 3835390401, 4022224774,
   264347078, 604807628, 770255983, 1249150122, 1555081692, 1996064986,
   2554220882, 2821834349, 2952996808, 3210313671, 3336571891, 3584528711,
   113926993, 338241895, 666307205, 773529912, 1294757372, 1396182291,
   1695183700, 1986661051, 2177026350, 2456956037, 2730485921, 2820302411,
   3259730800, 3345764771, 3516065817, 3600352804, 4094571909, 275423344,
   430227734, 506948616, 659060556, 883997877, 958139571, 1322822218,
   1537002063, 1747873779, 1955562222, 2024104815, 2227730452, 2361852424,
   2428436474, 2756734187, 3204031479, 3329325298]

/-- SHA-256 initial hash state (FIPS 180-4, written in decimal). -/
def sha256H0 : List Nat :=
  [1779033703, 3144134277, 1013904242, 2773480762,
   1359893119, 2600822924, 528734635, 1541459225]

/-- Big-endian bytes to a word. -/
def beWord : List Nat → Nat
  | [] => 0
  | b :: bs => b * 256 ^ bs.length + beWord bs

/-- Split a list into chunks of `n` elements (`n > 0` in all uses). -/
def chunksOf (n : Nat) : List α → List (List α)
  | [] => []
  | x :: xs =>
    let rec go : List α → List α → Nat → List (List α) → List (List α)
      | [], [], _, acc => acc
      | [], cur, _, acc => acc ++ [cur.reverse]
      | y :: ys, cur, k, acc =>
        if k ≤ 1 then go ys [] n (acc ++ [(y :: cur).reverse])
        else go ys (y :: cur) (k - 1) acc
    go xs [x] (n - 1) []

/-- One step of the SHA-256 message-schedule extension. -/
def schedStep (w : List Nat) (i : Nat) : Nat :=
  let g := fun j => w.getD j 0
  let s0 := (rotr 7 (g (i - 15))).xor ((rotr 18 (g (i - 15))).xor ((g (i - 15)) >>> 3))
  let s1 := (rotr 17 (g (i - 2))).xor ((rotr 19 (g (i - 2))).xor ((g (i - 2)) >>> 10))
  w32 (g (i - 16) + s0 + g (i - 7) + s1)

/-- Extend 16 schedule words to 64. -/
def extendSched (w : List Nat) : Nat → List Nat
  | 0 => w
  | k + 1 =>
    let w2 := extendSched w k
    w2 ++ [schedStep w2 (16 + k)]

/-- One SHA-256 compression round. -/
def sha256Round (k wi : Nat) : List Nat → List Nat
  | [a, b, c, d, e, f, g, h] =>
    let s1 := (rotr 6 e).xor ((rotr 11 e).xor (rotr 25 e))
    let ch := (e.land f).xor ((4294967295 - w32 e).land g)
    let t1 := w32 (h + s1 + ch + k + wi)
    let s0 := (rotr 2 a).xor ((rotr 13 a).xor (rotr 22 a))
    let mj := (a.land b).xor ((a.land c).xor (b.land c))
    let t2 := w32 (s0 + mj)
    [w32 (t1 + t2), a, b, c, w32 (d + t1), e, f, g]
  | s => s

/-- Compress one 64-byte block into the running state. -/
def sha256Block (state : List Nat) (block : List Nat) : List Nat :=
  let w0 := (chunksOf 4 block).map beWord
  let w := extendSched w0 48
  let rounds := (List.range 64).foldl
    (fun st i => sha256Round (sha256K.getD i 0) (w.getD i 0) st) state
  (state.zip rounds).map (fun p => w32 (p.1 + p.2))

/-- SHA-256 padding of a byte message. -/
def sha256Pad (msg : List Nat) : List Nat :=
  let len := msg.length
  let bitLen := len * 8
  let padZeros := (55 + 64 - len % 64) % 64
  msg ++ [128] ++ List.replicate padZeros 0 ++
    (List.range 8).map (fun i => (bitLen >>> ((7 - i) * 8)) % 256)

/-- SHA-256 digest of a byte message, as 32 bytes. -/
def sha256Bytes (msg : List Nat) : List Nat :=
  let blocks := chunksOf 64 (sha256Pad msg)
  let final := blocks.foldl sha256Block sha256H0
  final.flatMap (fun word => (List.range 4).map (fun i => (word >>> ((3 - i) * 8)) % 256))

/-- One hex digit. -/
def hexDigit (n : Nat) : Char :=
  if n < 10 then Char.ofNat (48 + n) else Char.ofNat (87 + n)

/-- Lowercase hex of a byte list (`.hexdigest()`). -/
def toHex (bs : List Nat) : String :=
  String.mk (bs.flatMap (fun b => [hexDigit (b / 16), hexDigit (b % 16)]))

/-- UTF-8 encoding of one code point. -/
def utf8Char (c : Char) : List Nat :=
  let n := c.toNat
  if n < 128 then [n]
  else if n < 2048 then [192 + n / 64, 128 + n % 64]
  else if n < 65536 then [224 + n / 4096, 128 + n / 64 % 64, 128 + n % 64]
  else [240 + n / 262144, 128 + n / 4096 % 64, 128 + n / 64 % 64, 128 + n % 64]

/-- `s.encode('utf-8')`. -/
def utf8Encode (s : String) : List Nat := s.data.flatMap utf8Char

/-- `ingest_elastic.generate_doc_id`: SHA-256 hexdigest of the UTF-8
encoding of the canonical content string. -/
def generate_doc_id (content_str : String) : String :=
  toHex (sha256Bytes (utf8Encode content_str))

/-- `compute_doc_id` of the Telegram probes: SHA-256 of
`f"{channel}:{message_id}"`. -/
def compute_doc_id (channel : String) (message_id : Nat) : String :=
  generate_doc_id (channel ++ ":" ++ toString message_id)

/-! ### JSON values

Parsed JSON payloads (`json.load` output).  Numbers are modelled as
integers: no claim in scope depends on float formatting.  Objects are
key/value lists in insertion order, mirroring CPython dicts. -/

inductive Json where
  | null : Json
  | bool : Bool → Json
  | num : Int → Json
  | str : String → Json
  | arr : List Json → Json
  | obj : List (String × Json) → Json
deriving Repr

/- Python `==` on parsed JSON values (used by `in` on lists). -/
mutual
def jbeq : Json → Json → Bool
  | .null, .null => true
  | .bool a, .bool b => a == b
  | .num a, .num b => a == b
  | .str a, .str b => a == b
  | .arr a, .arr b => jbeqList a b
  | .obj a, .obj b => jbeqPairs a b
  | _, _ => false
def jbeqList : List Json → List Json → Bool
  | [], [] => true
  | a :: as, b :: bs => jbeq a b && jbeqList as bs
  | _, _ => false
def jbeqPairs : List (String × Json) → List (String × Json) → Bool
  | [], [] => true
  | (ka, va) :: as, (kb, vb) :: bs => ka == kb && jbeq va vb && jbeqPairs as bs
  | _, _ => false
end

/-- First binding of a key in an object's pair list (CPython dicts hold
each key once, so first = only). -/
def jlookup : List (String × Json) → String → Option Json
  | [], _ => none
  | (k, v) :: kvs, key => if k = key then some v else jlookup kvs key

/-- Key presence in an object. -/
def hasKey (kvs : List (String × Json)) (key : String) : Bool :=
  (jlookup kvs key).isSome

/-- Opening brace, written by code point to keep string literals plain. -/
def brL : String := String.mk [Char.ofNat 123]

/-- Closing brace. -/
def brR : String := String.mk [Char.ofNat 125]

/-- Four-digit hex of a code unit. -/
def hex4 (n : Nat) : List Char :=
  [hexDigit (n / 4096 % 16), hexDigit (n / 256 % 16), hexDigit (n / 16 % 16), hexDigit (n % 16)]

/-- `\uXXXX` escape (surrogate pair above the BMP), as `json.dumps` with
its default `ensure_ascii=True` emits. -/
def uEscape (n : Nat) : List Char :=
  if n < 65536 then '\\' :: 'u' :: hex4 n
  else
    let m := n - 65536
    ('\\' :: 'u' :: hex4 (55296 + m / 1024)) ++ ('\\' :: 'u' :: hex4 (56320 + m % 1024))

/-- `json.dumps` escaping of one character. -/
def jsonEscapeChar (c : Char) : List Char :=
  if c = '"' then ['\\', '"']
  else if c = '\\' then ['\\', '\\']
  else if c = '\n' then ['\\', 'n']
  else if c = '\t' then ['\\', 't']
  else if c = '\r' then ['\\', 'r']
  else if c.toNat = 8 then ['\\', 'b']
  else if c.toNat = 12 then ['\\', 'f']
  else if 32 ≤ c.toNat ∧ c.toNat < 127 then [c]
  else uEscape c.toNat

/-- A JSON string literal with quotes and escapes. -/
def jsonQuote (s : String) : String :=
  String.mk ('"' :: s.data.flatMap jsonEscapeChar ++ ['"'])

/-- Code-point lexicographic order on strings (Python string `<=`),
used for `sort_keys=True`. -/
def charListLe : List Char → List Char → Bool
  | [], _ => true
  | _ :: _, [] => false
  | a :: as, b :: bs => a.toNat < b.toNat || (a == b && charListLe as bs)

/-- Insert a serialized key/value pair in key order. -/
def insertPair (p : String × String) : List (String × String) → List (String × String)
  | [] => [p]
  | q :: qs => if charListLe p.1.data q.1.data then p :: q :: qs else q :: insertPair p qs

/-- Sort serialized key/value pairs by key (`sort_keys=True`). -/
def sortPairs : List (String × String) → List (String × String)
  | [] => []
  | p :: ps => insertPair p (sortPairs ps)

/- `json.dumps(value, sort_keys=True)` with the default separators.
Keys are sorted after each member is serialized; serialization of a
member does not depend on its position, so this agrees with CPython,
which sorts first. -/
mutual
def dumps : Json → String
  | .null => "null"
  | .bool b => if b then "true" else "false"
  | .num n => toString n
  | .str s => jsonQuote s
  | .arr xs => "[" ++ String.intercalate ", " (dumpsList xs) ++ "]"
  | .obj kvs =>
    brL ++ String.intercalate ", "
      ((sortPairs (dumpsPairs kvs)).map (fun p => jsonQuote p.1 ++ ": " ++ p.2)) ++ brR
def dumpsList : List Json → List String
  | [] => []
  | x :: xs => dumps x :: dumpsList xs
def dumpsPairs : List (String × Json) → List (String × String)
  | [] => []
  | (k, v) :: kvs => (k, dumps v) :: dumpsPairs kvs
end

/-- `indent * " "` for `json.dumps(..., indent=2)`. -/
def indentStr (level : Nat) : String := String.mk (List.replicate (2 * level) ' ')

/- `json.dumps(value, indent=2)` (insertion order, item separator `,`,
key separator `: `), used for the comprehensive-report body field. -/
mutual
def dumpsIndent : Nat → Json → String
  | _, .null => "null"
  | _, .bool b => if b then "true" else "false"
  | _, .num n => toString n
  | _, .str s => jsonQuote s
  | _, .arr [] => "[]"
  | level, .arr xs =>
    "[\n" ++ String.intercalate ",\n"
      ((dumpsIndentList (level + 1) xs).map (fun s => indentStr (level + 1) ++ s)) ++
      "\n" ++ indentStr level ++ "]"
  | _, .obj [] => brL ++ brR
  | level, .obj kvs =>
    brL ++ "\n" ++ String.intercalate ",\n"
      ((dumpsIndentPairs (level + 1) kvs).map
        (fun p => indentStr (level + 1) ++ jsonQuote p.1 ++ ": " ++ p.2)) ++
      "\n" ++ indentStr level ++ brR
def dumpsIndentList : Nat → List Json → List String
  | _, [] => []
  | level, x :: xs => dumpsIndent level x :: dumpsIndentList level xs
def dumpsIndentPairs : Nat → List (String × Json) → List (String × String)
  | _, [] => []
  | level, (k, v) :: kvs => (k, dumpsIndent level v) :: dumpsIndentPairs level kvs
end

/-- A single-quote character, by code point. -/
def sq : String := String.mk [Char.ofNat 39]

/- Python `repr` of a parsed-JSON value (how container members print
inside f-strings). -/
mutual
def pyRepr : Json → String
  | .null => "None"
  | .bool b => if b then "True" else "False"
  | .num n => toString n
  | .str s => sq ++ s ++ sq
  | .arr xs => "[" ++ String.intercalate ", " (pyReprList xs) ++ "]"
  | .obj kvs =>
    brL ++ String.intercalate ", "
      ((pyReprPairs kvs).map (fun p => sq ++ p.1 ++ sq ++ ": " ++ p.2)) ++ brR
def pyReprList : List Json → List String
  | [] => []
  | x :: xs => pyRepr x :: pyReprList xs
def pyReprPairs : List (String × Json) → List (String × String)
  | [] => []
  | (k, v) :: kvs => (k, pyRepr v) :: pyReprPairs kvs
end

/-- Python `str` of a parsed-JSON value (f-string interpolation). -/
def pyStr : Json → String
  | .str s => s
  | v => pyRepr v

/-! ### Python exception model -/

/-- The exceptions the normalizer code can raise. -/
inductive PyErr where
  | typeError : String → PyErr
  | attributeError : String → PyErr
  | keyError : String → PyErr
deriving Repr, DecidableEq

/-- Exception-propagating bind, written out so that definitions reduce
transparently. -/
def bindE : Except PyErr α → (α → Except PyErr β) → Except PyErr β
  | .error e, _ => .error e
  | .ok a, f => f a

/-- Python `value.get(key, default)`: only dicts have `.get`. -/
def pyGet (v : Json) (key : String) (dflt : Json) : Except PyErr Json :=
  match v with
  | .obj kvs => .ok ((jlookup kvs key).getD dflt)
  | _ => .error (.attributeError "object has no attribute get")

/-- Python `key in value` for a string key: dict key lookup, substring
test on strings, element equality on lists, `TypeError` otherwise. -/
def pyIn (key : String) (v : Json) : Except PyErr Bool :=
  match v with
  | .obj kvs => .ok (hasKey kvs key)
  | .str s => .ok (strContains s key)
  | .arr xs => .ok (xs.any (fun x => jbeq x (.str key)))
  | _ => .error (.typeError "argument of non-iterable type")

/-- Python `value[key]` for a string key (only reached after a
successful `in` test in the source, but total here): dicts index,
everything else is a `TypeError`. -/
def pyIndex (v : Json) (key : String) : Except PyErr Json :=
  match v with
  | .obj kvs =>
    match jlookup kvs key with
    | some x => .ok x
    | none => .error (.keyError key)
  | _ => .error (.typeError "indices must be integers")

/-- Python iteration over a value (`for x in v` / `enumerate(v)`): lists
yield elements, strings yield characters, dicts yield keys. -/
def pyIter (v : Json) : Except PyErr (List Json) :=
  match v with
  | .arr xs => .ok xs
  | .str s => .ok (s.data.map (fun c => Json.str (String.mk [c])))
  | .obj kvs => .ok (kvs.map (fun p => Json.str p.1))
  | _ => .error (.typeError "object is not iterable")

/-- Python `len(v)`. -/
def pyLen (v : Json) : Except PyErr Nat :=
  match v with
  | .arr xs => .ok xs.length
  | .str s => .ok s.data.length
  | .obj kvs => .ok kvs.length
  | _ => .error (.typeError "object has no len")

/-- Python truthiness of a parsed-JSON value (`if not messages:`). -/
def pyTruthy : Json → Bool
  | .null => false
  | .bool b => b
  | .num n => n != 0
  | .str s => s != ""
  | .arr xs => !xs.isEmpty
  | .obj kvs => !kvs.isEmpty

/-! ### Classifier of `telegram_niemci_de4ru_osint.py` -/

/-- `RED_FLAG_KEYWORDS` from `telegram_niemci_de4ru_osint.py`. -/
def RED_FLAG_KEYWORDS : List String :=
  ["lichterfelde", "ostpreußendamm", "hindenburgdamm", "teltowkanal",
   "bäkestraße", "goerzallee", "heizkraftwerk", "kraftwerk",
   "stromnetz", "110kv", "hochspannung", "kabelbrücke", "cable bridge",
   "umspannwerk", "электросеть", "кабельный мост",
   "pfalzburger", "jpg recruitment", "itaar", "+44 77", "+44 78", "+44 73",
   "anastasia", "anatoliy", "elmira",
   "без документов", "без опыта", "жилье предоставляется",
   "housing provided", "no german required", "без немецкого",
   "strabag", "stratieka", "boran", "planmann"]

/-- Output record of `classify_message`. -/
structure Classification where
  language : String
  recruitment_type : String
  red_flags : List String
  red_flag_score : Nat
  contains_phone_number : Bool
  mentions_housing : Bool
  mentions_no_language_required : Bool
deriving Repr, DecidableEq

/-- `classify_message` from `telegram_niemci_de4ru_osint.py`: language,
recruitment type, red-flag keywords and score, plus the pattern bits. -/
def classify_message (text : String) : Classification :=
  let text_lower := if text = "" then "" else pyLower text
  let lang :=
    if ["работа", "вакансия", "требуется", "зарплата", "опыт"].any
        (fun w => strContains text_lower w) then "russian"
    else if ["робота", "вакансія", "зарплатня"].any
        (fun w => strContains text_lower w) then "ukrainian"
    else if ["praca", "wynagrodzenie", "zatrudnienie"].any
        (fun w => strContains text_lower w) then "polish"
    else if ["arbeit", "gesucht", "baustelle", "gehalt"].any
        (fun w => strContains text_lower w) then "german"
    else "other"
  let recruitment_type :=
    if ["zeitarbeit", "personalvermittlung", "staffing", "recruitment", "agency"].any
        (fun w => strContains text_lower w) then "staffing_agency"
    else if ["subunternehmer", "nachunternehmer", "подрядчик"].any
        (fun w => strContains text_lower w) then "subcontractor"
    else if ["direkt", "einstellung", "прямой наём", "direct"].any
        (fun w => strContains text_lower w) then "direct_hire"
    else if ["helfer", "подсобник", "helper", "pomoc"].any
        (fun w => strContains text_lower w) then "helper_role"
    else "general"
  let red_flags_found := RED_FLAG_KEYWORDS.filter (fun kw => strContains text_lower kw)
  let red_flag_score := min red_flags_found.length 10
  let contains_phone :=
    "0123456789".data.any (fun c => isDigitChar c && decide (countChar text_lower c > 5))
      || strContains text_lower "+"
  let mentions_housing :=
    ["жилье", "проживание", "unterkunft", "housing", "wohnung", "zakwaterowanie"].any
      (fun w => strContains text_lower w)
  let mentions_no_language :=
    ["без немецкого", "ohne deutsch", "no german", "без языка", "bez języka"].any
      (fun w => strContains text_lower w)
  { language := lang
    recruitment_type := recruitment_type
    red_flags := red_flags_found
    red_flag_score := red_flag_score
    contains_phone_number := contains_phone
    mentions_housing := mentions_housing
    mentions_no_language_required := mentions_no_language }

/-! ### Classifier of `telegram_phone_number_search.py` -/

/-- Regex atoms appearing in `PHONE_PATTERNS`. -/
inductive RTok where
  | lit : Char → RTok
  | wsStar : RTok
  | digitN : Nat → RTok
  | digitRange : Char → Char → RTok
  | wsDigitRange : Nat → Nat → RTok
  | digitBounded : Nat → Nat → RTok
deriving Repr, DecidableEq

/-- Python `\s` on the ASCII whitespace the data uses. -/
def isWsChar (c : Char) : Bool :=
  c = ' ' || c = '\t' || c = '\n' || c = '\r' || c.toNat = 11 || c.toNat = 12

/-- Greedy matcher for one pattern at the head of the text.  In every
pattern of `PHONE_PATTERNS` the character classes adjacent to a starred
class are disjoint from it and the bounded class `[\s\d]{m,n}` is final,
so greedy matching without backtracking matches Python `re` exactly. -/
def matchToks : List RTok → List Char → Option (List Char × List Char)
  | [], rest => some ([], rest)
  | .lit c :: ts, r :: rs =>
    if r == c then (matchToks ts rs).map (fun p => (r :: p.1, p.2)) else none
  | .lit _ :: _, [] => none
  | .wsStar :: ts, rs =>
    let ws := rs.takeWhile isWsChar
    (matchToks ts (rs.dropWhile isWsChar)).map (fun p => (ws ++ p.1, p.2))
  | .digitN n :: ts, rs =>
    let ds := rs.take n
    if ds.length = n && ds.all isDigitChar then
      (matchToks ts (rs.drop n)).map (fun p => (ds ++ p.1, p.2))
    else none
  | .digitRange lo hi :: ts, r :: rs =>
    if lo.toNat ≤ r.toNat && r.toNat ≤ hi.toNat then
      (matchToks ts rs).map (fun p => (r :: p.1, p.2))
    else none
  | .digitRange _ _ :: _, [] => none
  | .wsDigitRange lo hi :: ts, rs =>
    let cls := fun c => isWsChar c || isDigitChar c
    let avail := (rs.takeWhile cls).length
    let take := min hi avail
    if take < lo then none
    else (matchToks ts (rs.drop take)).map (fun p => (rs.take take ++ p.1, p.2))
  | .digitBounded lo hi :: ts, rs =>
    let avail := (rs.takeWhile isDigitChar).length
    let take := min hi avail
    if take < lo then none
    else (matchToks ts (rs.drop take)).map (fun p => (rs.take take ++ p.1, p.2))

/-- `re.findall` for one pattern: leftmost, non-overlapping matches.
The fuel starts at the text length; every step consumes at least one
character because each pattern starts with a literal. -/
def findAllAux (p : List RTok) : Nat → List Char → List String
  | 0, _ => []
  | _, [] => []
  | fuel + 1, s@(_ :: rest) =>
    match matchToks p s with
    | some ([], _) => findAllAux p fuel rest
    | some (consumed, remaining) => String.mk consumed :: findAllAux p fuel remaining
    | none => findAllAux p fuel rest

/-- `re.findall(pattern, text)`. -/
def reFindAll (p : List RTok) (text : String) : List String :=
  findAllAux p text.data.length text.data

/-- A literal run of pattern characters. -/
def lits (s : String) : List RTok := s.data.map RTok.lit

/-- `PHONE_PATTERNS` from `telegram_phone_number_search.py`, one entry
per source regex, in order. -/
def PHONE_PATTERNS : List (List RTok) :=
  [ -- r"\+44\s*7\d{3}\s*\d{3}\s*\d{3}"
    lits "+44" ++ [.wsStar] ++ lits "7" ++ [.digitN 3, .wsStar, .digitN 3, .wsStar, .digitN 3],
    -- r"\+44\s*7\d{9}"
    lits "+44" ++ [.wsStar] ++ lits "7" ++ [.digitN 9],
    -- r"\+46\s*7\d[\s\d]{7,10}"
    lits "+46" ++ [.wsStar] ++ lits "7" ++ [.digitN 1, .wsDigitRange 7 10],
    -- r"\+49\s*1[5-7]\d[\s\d]{7,10}"
    lits "+49" ++ [.wsStar] ++ lits "1" ++ [.digitRange '5' '7', .digitN 1, .wsDigitRange 7 10],
    -- r"\+49\s*30\s*\d{6,9}"
    lits "+49" ++ [.wsStar] ++ lits "30" ++ [.wsStar, .digitBounded 6 9],
    -- r"7881\s*228\s*865"
    lits "7881" ++ [.wsStar] ++ lits "228" ++ [.wsStar] ++ lits "865",
    -- r"7777\s*213\s*139"
    lits "7777" ++ [.wsStar] ++ lits "213" ++ [.wsStar] ++ lits "139",
    -- r"7387\s*793\s*670"
    lits "7387" ++ [.wsStar] ++ lits "793" ++ [.wsStar] ++ lits "670",
    -- r"7459\s*878\s*923"
    lits "7459" ++ [.wsStar] ++ lits "878" ++ [.wsStar] ++ lits "923",
    -- r"7908\s*973\s*686"
    lits "7908" ++ [.wsStar] ++ lits "973" ++ [.wsStar] ++ lits "686",
    -- r"7494\s*401\s*874"
    lits "7494" ++ [.wsStar] ++ lits "401" ++ [.wsStar] ++ lits "874",
    -- r"1577\s*710\s*3445"
    lits "1577" ++ [.wsStar] ++ lits "710" ++ [.wsStar] ++ lits "3445" ]

/-- `extract_phones`: all pattern matches, collapsed to distinct values.
CPython's `list(set(...))` order is hash-dependent but fixed within a
process; first-occurrence order is one faithful within-run reading. -/
def extract_phones (text : String) : List String :=
  (PHONE_PATTERNS.flatMap (fun p => reFindAll p text)).eraseDups

/-- Output record of `score_message`. -/
structure Scoring where
  relevance_score : Nat
  indicators : List String
  phones_extracted : List String
deriving Repr, DecidableEq

/-- One keyword-table step of `score_message`: weight added and a tagged
indicator recorded on a substring match. -/
def scoreStep (hay : String) (w : Nat) (tag : String) (acc : Nat × List String)
    (kw : String) : Nat × List String :=
  if strContains hay kw then (acc.1 + w, acc.2 ++ [tag ++ kw]) else acc

/-- `known_phones` table (weight 5). -/
def KNOWN_PHONES : List String :=
  ["7881228865", "7777213139", "7387793670",
   "7459878923", "7908973686", "7494401874",
   "15777103445", "737884015", "88475588"]

/-- `high_entities` table (weight 3). -/
def HIGH_ENTITIES : List String :=
  ["jpg recruitment", "itaar", "pfalzburger",
   "jkbeautyinstitut", "jk_beauty", "bagratuni",
   "primaholding", "voxenergie", "sol-tech"]

/-- `person_names` table (weight 2). -/
def PERSON_NAMES : List String :=
  ["anastasia", "anatoliy", "elmira",
   "vukusic", "marijana fenster", "mario kovac"]

/-- `locations` table (weight 2). -/
def LOCATIONS : List String :=
  ["lichterfelde", "stromnetz", "steglitz",
   "110kv", "kabelbrücke", "ostpreußendamm"]

/-- `construction` table (weight 1). -/
def CONSTRUCTION : List String :=
  ["bauhelfer berlin", "электрик берлин", "монтажник берлин",
   "строитель берлин", "кабельщик", "scaffolder berlin",
   "strabag", "stratieka", "boran", "planmann"]

/-- `score_message` from `telegram_phone_number_search.py`. -/
def score_message (text : String) : Scoring :=
  let text_lower := if text = "" then "" else pyLower text
  let text_digits := onlyDigits text
  let acc1 := KNOWN_PHONES.foldl (scoreStep text_digits 5 "KNOWN_PHONE:") (0, [])
  let acc2 := HIGH_ENTITIES.foldl (scoreStep text_lower 3 "ENTITY:") acc1
  let acc3 := PERSON_NAMES.foldl (scoreStep text_lower 2 "PERSON:") acc2
  let acc4 := LOCATIONS.foldl (scoreStep text_lower 2 "LOCATION:") acc3
  let acc5 := CONSTRUCTION.foldl (scoreStep text_lower 1 "CONSTRUCTION:") acc4
  { relevance_score := min acc5.1 20
    indicators := acc5.2
    phones_extracted := extract_phones text }

/-! ### Normalizers of `ingest_elastic.py`

Each normalizer takes the `datetime.now().isoformat()` string as an
explicit `now` parameter and returns the list of built documents, each
an object mirroring the Python dict, `_id` included. -/

/-- Is the value a dict? -/
def jIsObj : Json → Bool
  | .obj _ => true
  | _ => false

/-- Exception-propagating map (a Python `for` loop building a list). -/
def mapE (f : α → Except PyErr β) : List α → Except PyErr (List β)
  | [] => .ok []
  | x :: xs => bindE (f x) fun y => bindE (mapE f xs) fun ys => .ok (y :: ys)

/-- One document per organic result (`normalize_serp_api_data`, first
loop).  `sq`/`sl` are the precomputed search query and location. -/
def buildOrganicDoc (now filename report_id : String) (sq sl : Json) (idx : Nat)
    (result : Json) : Except PyErr Json :=
  bindE (pyGet result "title" (.str "")) fun title =>
  bindE (pyGet result "snippet" (.str "")) fun body =>
  bindE (pyGet result "link" (.str "")) fun url =>
  bindE (pyGet result "redirect_link" (.str "")) fun redirect_url =>
  bindE (pyGet result "displayed_link" (.str "")) fun displayed_link =>
  bindE (pyGet result "source" (.str "")) fun source =>
  bindE (pyGet result "position" (.num (Int.ofNat (idx + 1)))) fun position =>
  bindE (pyGet result "date" (.str "")) fun date =>
  bindE (pyGet result "favicon" (.str "")) fun favicon =>
  bindE (pyGet result "thumbnail" (.str "")) fun thumbnail =>
  bindE (pyGet result "video_link" (.str "")) fun video_link =>
  bindE (pyGet result "duration" (.str "")) fun duration =>
  .ok (.obj
    [("timestamp", .str now), ("source_file", .str filename),
     ("source_type", .str "serp_api"), ("data_type", .str "organic_result"),
     ("title", title), ("body", body), ("url", url),
     ("redirect_url", redirect_url), ("displayed_link", displayed_link),
     ("source", source), ("position", position), ("date", date),
     ("search_query", sq), ("search_location", sl), ("favicon", favicon),
     ("thumbnail", thumbnail), ("video_link", video_link), ("duration", duration),
     ("raw_source", result), ("report_id", .str report_id),
     ("_id", .str (generate_doc_id (dumps result)))])

/-- `enumerate` loop over organic results. -/
def mapOrganic (now filename report_id : String) (sq sl : Json) :
    Nat → List Json → Except PyErr (List Json)
  | _, [] => .ok []
  | idx, r :: rs =>
    bindE (buildOrganicDoc now filename report_id sq sl idx r) fun d =>
    bindE (mapOrganic now filename report_id sq sl (idx + 1) rs) fun ds =>
    .ok (d :: ds)

/-- One document per related question. -/
def buildQuestionDoc (now filename report_id : String) (sq sl : Json)
    (question : Json) : Except PyErr Json :=
  bindE (pyGet question "question" (.str "")) fun title =>
  bindE (pyGet question "snippet" (.str "")) fun body =>
  bindE (pyGet question "link" (.str "")) fun url =>
  bindE (pyGet question "source" (.str "")) fun source =>
  bindE (pyGet question "type" (.str "")) fun question_type =>
  .ok (.obj
    [("timestamp", .str now), ("source_file", .str filename),
     ("source_type", .str "serp_api"), ("data_type", .str "related_question"),
     ("title", title), ("body", body), ("url", url), ("source", source),
     ("question_type", question_type), ("search_query", sq),
     ("search_location", sl), ("raw_source", question),
     ("report_id", .str report_id),
     ("_id", .str (generate_doc_id (dumps question)))])

/-- One document per related search. -/
def buildSearchDoc (now filename report_id : String) (sq sl : Json)
    (search : Json) : Except PyErr Json :=
  bindE (pyGet search "query" (.str "")) fun title =>
  bindE (pyGet search "link" (.str "")) fun url =>
  .ok (.obj
    [("timestamp", .str now), ("source_file", .str filename),
     ("source_type", .str "serp_api"), ("data_type", .str "related_search"),
     ("title", title), ("url", url), ("search_query", sq),
     ("search_location", sl), ("raw_source", search),
     ("report_id", .str report_id),
     ("_id", .str (generate_doc_id (dumps search)))])

/-- `normalize_serp_api_data`. -/
def normalize_serp_api_data (now : String) (raw_doc : Json)
    (filename report_id : String) : Except PyErr (List Json) :=
  bindE (pyGet raw_doc "search_parameters" (.obj [])) fun sp1 =>
  bindE (pyGet sp1 "q" (.str "")) fun sq =>
  bindE (pyGet raw_doc "search_parameters" (.obj [])) fun sp2 =>
  bindE (pyGet sp2 "location_used" (.str "")) fun sl =>
  bindE (pyGet raw_doc "organic_results" (.arr [])) fun orv =>
  bindE (pyIter orv) fun organic =>
  bindE (mapOrganic now filename report_id sq sl 0 organic) fun docs1 =>
  bindE (pyGet raw_doc "related_questions" (.arr [])) fun rqv =>
  bindE (pyIter rqv) fun questions =>
  bindE (mapE (buildQuestionDoc now filename report_id sq sl) questions) fun docs2 =>
  bindE (pyGet raw_doc "related_searches" (.arr [])) fun rsv =>
  bindE (pyIter rsv) fun searches =>
  bindE (mapE (buildSearchDoc now filename report_id sq sl) searches) fun docs3 =>
  .ok (docs1 ++ docs2 ++ docs3)

/-- One document per Telegram message (`normalize_telegram_osint_data`
message loop).  `sqs`/`chs` are the `search_queries` and
`channels_searched` values. -/
def buildTelegramDoc (now filename report_id : String) (sqs chs : Json)
    (message : Json) : Except PyErr Json :=
  bindE (pyGet message "sender_id" (.str "unknown")) fun sender =>
  bindE (pyGet message "message" (.str "")) fun body =>
  bindE (pyGet message "channel" (.str "unknown")) fun urlChannel =>
  bindE (pyGet message "id" (.str "unknown")) fun urlId =>
  bindE (pyGet message "channel" (.str "")) fun channel =>
  bindE (pyGet message "sender_id" (.str "")) fun sender_id =>
  bindE (pyGet message "date" (.str "")) fun date =>
  .ok (.obj
    [("timestamp", .str now), ("source_file", .str filename),
     ("source_type", .str "telegram"), ("data_type", .str "message"),
     ("title", .str ("Telegram message from " ++ pyStr sender)),
     ("body", body),
     ("url", .str ("telegram://channel/" ++ pyStr urlChannel ++ "/" ++ pyStr urlId)),
     ("channel", channel), ("sender_id", sender_id), ("date", date),
     ("search_queries", sqs), ("channels_searched", chs),
     ("raw_source", message), ("report_id", .str report_id),
     ("_id", .str (generate_doc_id (dumps message)))])

/-- `normalize_telegram_osint_data`. -/
def normalize_telegram_osint_data (now : String) (raw_doc : Json)
    (filename report_id : String) : Except PyErr (List Json) :=
  bindE (pyGet raw_doc "search_queries" (.arr [])) fun sqs =>
  bindE (pyGet raw_doc "channels_searched" (.arr [])) fun chs =>
  bindE (pyGet raw_doc "messages" (.arr [])) fun mv =>
  bindE (pyIter mv) fun msgs =>
  bindE (mapE (buildTelegramDoc now filename report_id sqs chs) msgs) fun docs =>
  if pyTruthy mv then .ok docs
  else
    bindE (pyLen chs) fun nch =>
    bindE (pyLen sqs) fun nq =>
    .ok (docs ++
      [.obj
        [("timestamp", .str now), ("source_file", .str filename),
         ("source_type", .str "telegram"), ("data_type", .str "search_summary"),
         ("title", .str "Telegram OSINT Search Summary"),
         ("body", .str ("Searched " ++ toString nch ++ " channels with " ++
            toString nq ++ " queries. No messages found.")),
         ("search_queries", sqs), ("channels_searched", chs),
         ("messages_found", .num 0), ("raw_source", raw_doc),
         ("report_id", .str report_id),
         ("_id", .str (generate_doc_id (dumps raw_doc)))]])

/-- `normalize_comprehensive_report`. -/
def normalize_comprehensive_report (now : String) (raw_doc : Json)
    (filename report_id : String) : Except PyErr (List Json) :=
  bindE (pyGet raw_doc "case_name" (.str "Unknown")) fun titleCase =>
  bindE (pyGet raw_doc "critical_assessments" (.obj [])) fun caBody =>
  bindE (pyGet raw_doc "investigation_id" (.str "")) fun invId =>
  bindE (pyGet raw_doc "case_name" (.str "")) fun caseName =>
  bindE (pyGet raw_doc "investigation_phases" (.obj [])) fun phases =>
  bindE (pyGet raw_doc "critical_assessments" (.obj [])) fun assessments =>
  bindE (pyGet raw_doc "bka_recommendations" (.arr [])) fun bka =>
  bindE (pyGet raw_doc "hypothesis_support" (.str "")) fun hyp =>
  bindE (pyGet raw_doc "data_sources" (.arr [])) fun dataSources =>
  bindE (pyGet raw_doc "artifacts_created" (.arr [])) fun artifacts =>
  .ok [.obj
    [("timestamp", .str now), ("source_file", .str filename),
     ("source_type", .str "osint_report"), ("data_type", .str "comprehensive_report"),
     ("title", .str ("OSINT Report: " ++ pyStr titleCase)),
     ("body", .str (dumpsIndent 0 caBody)),
     ("investigation_id", invId), ("case_name", caseName),
     ("investigation_phases", phases), ("critical_assessments", assessments),
     ("bka_recommendations", bka), ("hypothesis_support", hyp),
     ("data_sources", dataSources), ("artifacts_created", artifacts),
     ("raw_source", raw_doc), ("report_id", .str report_id),
     ("_id", .str (generate_doc_id (dumps raw_doc)))]]

/-- Per-item document of the generic branch of `normalize_document`. -/
def buildGenericDoc (now filename report_id : String) (item : Json) :
    Except PyErr Json :=
  bindE (pyIn "source" item) fun b1 =>
  bindE (if b1 then pyIn "uri" item else .ok false) fun b2 =>
  bindE
    (if b1 && b2 then .ok ("news", "article")
     else
       bindE (pyIn "url" item) fun b3 =>
       .ok (if b3 then ("web", "page") else ("unknown", "unknown"))) fun st =>
  bindE (pyGet item "content" (.str "")) fun contentDflt =>
  bindE (pyGet item "body" contentDflt) fun body =>
  bindE (pyGet item "title" (.str "")) fun title =>
  bindE (pyGet item "link" (.str "")) fun linkDflt =>
  bindE (pyGet item "url" linkDflt) fun url =>
  .ok (.obj
    [("timestamp", .str now), ("source_file", .str filename),
     ("source_type", .str st.1), ("data_type", .str st.2),
     ("title", title), ("body", body), ("url", url),
     ("raw_source", item), ("report_id", .str report_id),
     ("_id", .str (generate_doc_id (dumps item)))])

/-- `normalize_document`: the format-detecting dispatcher.  The branch
order follows the source `if`/`elif` chain exactly. -/
def normalize_document (now : String) (raw_doc : Json)
    (filename valid_timestamp report_id : String) : Except PyErr (List Json) :=
  match raw_doc with
  | .obj kvs =>
    if hasKey kvs "search_parameters" && hasKey kvs "organic_results" then
      normalize_serp_api_data now raw_doc filename report_id
    else if hasKey kvs "search_queries" || hasKey kvs "channels_searched" then
      normalize_telegram_osint_data now raw_doc filename report_id
    else if hasKey kvs "investigation_phases" && hasKey kvs "critical_assessments" then
      normalize_comprehensive_report now raw_doc filename report_id
    else if hasKey kvs "articles" then
      bindE (pyIndex raw_doc "articles") fun av =>
      bindE (pyIn "results" av) fun hasRes =>
      if hasRes then
        bindE (pyIndex av "results") fun resv =>
        bindE (pyIter resv) fun items =>
        mapE (buildGenericDoc now filename report_id) items
      else mapE (buildGenericDoc now filename report_id) [raw_doc]
    else mapE (buildGenericDoc now filename report_id) [raw_doc]
  | .arr xs => mapE (buildGenericDoc now filename report_id) xs
  | _ => .ok []

/-- Can the value be iterated with every yielded item a dict?  (The
condition under which a normalizer item loop cannot raise.) -/
def iterableItemsOk (v : Json) : Bool :=
  match pyIter v with
  | .ok items => items.all jIsObj
  | .error _ => false

/-- Does the value support `len()`? -/
def hasLen : Json → Bool
  | .arr _ => true
  | .str _ => true
  | .obj _ => true
  | _ => false

/-- The payload shapes on which `normalize_document` cannot raise,
branch by branch of the dispatcher. -/
def safeDoc : Json → Bool
  | .obj kvs =>
    if hasKey kvs "search_parameters" && hasKey kvs "organic_results" then
      jIsObj ((jlookup kvs "search_parameters").getD (.obj []))
      && iterableItemsOk ((jlookup kvs "organic_results").getD (.arr []))
      && iterableItemsOk ((jlookup kvs "related_questions").getD (.arr []))
      && iterableItemsOk ((jlookup kvs "related_searches").getD (.arr []))
    else if hasKey kvs "search_queries" || hasKey kvs "channels_searched" then
      let mv := (jlookup kvs "messages").getD (.arr [])
      iterableItemsOk mv &&
        (pyTruthy mv ||
          (hasLen ((jlookup kvs "search_queries").getD (.arr []))
           && hasLen ((jlookup kvs "channels_searched").getD (.arr []))))
    else if hasKey kvs "investigation_phases" && hasKey kvs "critical_assessments" then
      true
    else if hasKey kvs "articles" then
      match (jlookup kvs "articles").getD .null with
      | .obj akvs =>
        match jlookup akvs "results" with
        | some resv => iterableItemsOk resv
        | none => true
      | .str s => !strContains s "results"
      | .arr xs => !xs.any (fun x => jbeq x (.str "results"))
      | _ => false
    else true
  | .arr xs => xs.all jIsObj
  | _ => true

/-! ### Index manager and ingest runner of `ingest_elastic.py`

The Elasticsearch connection is modelled by which indices already exist
and which creations raise; the `os.walk` is passed in as the list of
visited directories with their files' parsed contents. -/

/-- Connection state of the search engine. -/
structure ESState where
  existing : List String
  createFails : List String
deriving Repr, DecidableEq

/-- `ensure_index_exists`: `True` when the index already exists or was
created, `False` when creation raised (the error is logged). -/
def ensure_index_exists (es : ESState) (index_name : String) : Bool :=
  if index_name ∈ es.existing then true
  else if index_name ∈ es.createFails then false
  else true

/-- One bulk action (`_op_type: "create"`, `_id` popped out of the
document source). -/
structure BulkAction where
  index : String
  id : Option Json
  op_type : String
  source : Json
deriving Repr

/-- `doc.pop("_id")`: the popped value and the document without it. -/
def popId : Json → Option Json × Json
  | .obj kvs => ((jlookup kvs "_id"), .obj (kvs.filter (fun p => p.1 ≠ "_id")))
  | v => (none, v)

/-- Split on a single separator character (Python `str.split` with a
one-character separator, as `os.path` and the report-id parsing use). -/
def splitCharAux (sep : Char) : List Char → List Char → List String
  | [], cur => [String.mk cur.reverse]
  | c :: rest, cur =>
    if c = sep then String.mk cur.reverse :: splitCharAux sep rest []
    else splitCharAux sep rest (c :: cur)

/-- `s.split(sep)` for a one-character separator. -/
def splitChar (sep : Char) (s : String) : List String := splitCharAux sep s.data []

/-- `s.endswith(suffix)`. -/
def strEndsWith (s suffix : String) : Bool :=
  headMatch suffix.data.reverse s.data.reverse

/-- `os.path.basename(os.path.dirname(root))`. -/
def parentBasename (root : String) : String :=
  let parts := splitChar '/' root
  (parts.dropLast.getLast? ).getD ""

/-- The `report_id.split("_")[0] + "_" + report_id.split("_")[1]` step,
with the `IndexError` fallback to the current timestamp. -/
def reportTs (report_id nowTs : String) : String :=
  let parts := splitChar '_' report_id
  match parts with
  | p0 :: p1 :: _ => p0 ++ "_" ++ p1
  | _ => nowTs

/-- One directory visited by `os.walk`: its `root` path and the files
in it, each with the parsed content of the file.  Files whose read or
normalization raises are skipped by the per-file `except`, so contents
are given already parsed. -/
structure WalkDir where
  root : String
  files : List (String × Json)

/-- Result of `ingest_directory`: the collected bulk batch, the indices
scheduled for creation (first-occurrence order of the source's set),
the ignored creation results, and whether the bulk write was issued. -/
structure IngestResult where
  actions : List BulkAction
  indices : List String
  createResults : List (String × Bool)
  bulkIssued : Bool
deriving Repr

/-- Directory filter of the walk loop. -/
def dirMatches (root : String) : Bool :=
  strContains root "raw_data" || strContains root "osint_construction"

/-- Collect the bulk actions from one visited directory. -/
def collectDir (now nowTs index_prefix2 : String) (d : WalkDir) :
    List BulkAction × List String :=
  if dirMatches d.root then
    let report_id := parentBasename d.root
    let report_ts := reportTs report_id nowTs
    let index_name := pyLower (index_prefix2 ++ report_ts)
    let acts := d.files.flatMap (fun f =>
      if strEndsWith f.1 ".json" then
        let filepath := d.root ++ "/" ++ f.1
        match normalize_document now f.2 filepath report_ts report_id with
        | .ok docs => docs.map (fun doc =>
            let p := popId doc
            { index := index_name, id := p.1, op_type := "create", source := p.2 })
        | .error _ => []
      else [])
    (acts, [index_name])
  else ([], [])

/-- `ingest_directory` (the filesystem walk is the data, the connection
state never influences which documents are collected; the return value
of `ensure_index_exists` is recorded but — as in the source — not acted
on). -/
def ingest_directory (walk : List WalkDir) (es : ESState)
    (index_prefix2 nowTs now : String) : IngestResult :=
  let collected := walk.foldl
    (fun acc d =>
      let c := collectDir now nowTs index_prefix2 d
      (acc.1 ++ c.1, acc.2 ++ c.2))
    (([] : List BulkAction), ([] : List String))
  let indices := collected.2.eraseDups
  let createResults := indices.map (fun n => (n, ensure_index_exists es n))
  { actions := collected.1
    indices := indices
    createResults := createResults
    bulkIssued := !collected.1.isEmpty }

/-! ### The channel collection loop of `telegram_niemci_de4ru_osint.py`

`search_channel` is embedded with the Telegram client passed in as pure
functions: `resolve` for `get_entity`, `client` for `SearchRequest` (one
outcome per query), `fetch` for `GetHistoryRequest` (one page per offset
id).  Sleeps are recorded in milliseconds.  The `classified` field logs
every message id passed to `classify_message`, in call order — the
observable "classification work" of the loop. -/

/-- A raw message as the search/history APIs return it. -/
structure Msg where
  id : Nat
  date : Int
  text : String
  views : Nat
  forwards : Nat
  replyTo : Option Nat
deriving Repr, DecidableEq

/-- Outcome of one `SearchRequest`: a page of messages, or an exception
whose text may carry a flood-wait hint (the hint is part of the signal;
the source never reads it). -/
inductive QueryOutcome where
  | ok : List Msg → QueryOutcome
  | exn : String → Option Nat → QueryOutcome

/-- One collected `message_data` record. -/
structure MsgData where
  doc_id : String
  message_id : Nat
  date : Int
  text : String
  matched_query : String
  views : Nat
  forwards : Nat
  reply_to : Option Nat
  cls : Classification
deriving Repr, DecidableEq

/-- Mutable state of one `search_channel` run. -/
structure SearchState where
  seen : List Nat
  messages : List MsgData
  errors : List String
  classified : List Nat
  requests : List String
  sleeps : List Nat
  fetches : Nat
deriving Repr

/-- The empty per-channel state (`seen_ids = set()` etc.). -/
def initState : SearchState :=
  { seen := [], messages := [], errors := [], classified := [], requests := []
    sleeps := [], fetches := 0 }

/-- Build one `message_data` dict. -/
def mkMsgData (channelName query : String) (m : Msg) (c : Classification) : MsgData :=
  { doc_id := compute_doc_id channelName m.id
    message_id := m.id
    date := m.date
    text := m.text
    matched_query := query
    views := m.views
    forwards := m.forwards
    reply_to := m.replyTo
    cls := c }

/-- The inner message loop of one query result page. -/
def processSearchMsgs (channelName query : String) (searchStart searchEnd : Int) :
    List Msg → SearchState → SearchState
  | [], st => st
  | m :: ms, st =>
    if m.id ∈ st.seen then
      processSearchMsgs channelName query searchStart searchEnd ms st
    else if m.text = "" then
      processSearchMsgs channelName query searchStart searchEnd ms st
    else if m.date < searchStart || searchEnd < m.date then
      processSearchMsgs channelName query searchStart searchEnd ms st
    else
      let st := { st with seen := m.id :: st.seen, classified := st.classified ++ [m.id] }
      let c := classify_message m.text
      let st := { st with messages := st.messages ++ [mkMsgData channelName query m c] }
      processSearchMsgs channelName query searchStart searchEnd ms st

/-- Upper-cased exception text contains "FLOOD"? -/
def isFloodText (e : String) : Bool := strContains (pyUpper e) "FLOOD"

/-- The query loop of `search_channel`: one request per query; a page is
processed then followed by the 0.5 s courtesy sleep; an exception is
recorded, a flood-wait sleeps a fixed 30 s, and the loop moves to the
NEXT query either way (the source `continue`). -/
def runQueries (client : String → QueryOutcome) (channelName : String)
    (searchStart searchEnd : Int) : List String → SearchState → SearchState
  | [], st => st
  | q :: qs, st =>
    let st := { st with requests := st.requests ++ [q] }
    match client q with
    | .ok msgs =>
      let st := processSearchMsgs channelName q searchStart searchEnd msgs st
      runQueries client channelName searchStart searchEnd qs
        { st with sleeps := st.sleeps ++ [500] }
    | .exn e _hint =>
      let st := { st with errors := st.errors ++ ["Query " ++ q ++ ": " ++ e] }
      let st :=
        if isFloodText e then { st with sleeps := st.sleeps ++ [30000] } else st
      runQueries client channelName searchStart searchEnd qs st

/-- Keyword list of the history-scan relevance filter. -/
def HISTORY_RELEVANT_KEYWORDS : List String :=
  ["bau", "elektr", "montag", "install", "gerüst", "scaffold",
   "строй", "электр", "монтаж", "кабел", "подсоб",
   "helfer", "arbeiter", "работ", "вакан",
   "berlin", "берлин"]

/-- The inner message loop of one history page.  The returned flag is
true when the loop hit a message older than the window start (the
source sets `history_offset_id = 0` and breaks). -/
def processHistoryMsgs (channelName : String) (searchStart searchEnd : Int) :
    List Msg → SearchState → SearchState × Bool
  | [], st => (st, false)
  | m :: ms, st =>
    if m.id ∈ st.seen then
      processHistoryMsgs channelName searchStart searchEnd ms st
    else if m.text = "" then
      processHistoryMsgs channelName searchStart searchEnd ms st
    else if m.date < searchStart then
      (st, true)
    else if searchEnd < m.date then
      processHistoryMsgs channelName searchStart searchEnd ms st
    else
      let st := { st with seen := m.id :: st.seen, classified := st.classified ++ [m.id] }
      let c := classify_message m.text
      let text_lower := pyLower m.text
      let is_relevant :=
        decide (c.red_flag_score > 0) ||
          HISTORY_RELEVANT_KEYWORDS.any (fun kw => strContains text_lower kw)
      if is_relevant then
        processHistoryMsgs channelName searchStart searchEnd ms
          { st with messages := st.messages ++ [mkMsgData channelName "_history_scan" m c] }
      else processHistoryMsgs channelName searchStart searchEnd ms st

/-- The history pagination loop of `search_channel`.  The fuel bounds
the `while True` for the embedding only; the loop body never runs past
the first page (the `history_offset_id == 0` break fires with the
cursor still at its initial 0). -/
def historyLoop (fetch : Nat → List Msg) (channelName : String)
    (searchStart searchEnd : Int) :
    Nat → Nat → Nat → SearchState → SearchState
  | 0, _, _, st => st
  | fuel + 1, offsetId, batch, st =>
    let page := fetch offsetId
    let st := { st with fetches := st.fetches + 1 }
    if page.isEmpty then st
    else
      let r := processHistoryMsgs channelName searchStart searchEnd page st
      let st := r.1
      let offsetId2 := if r.2 then 0 else offsetId
      let batch := batch + 1
      if offsetId2 = 0 then st
      else
        let offsetId3 := (page.getLastD ⟨0, 0, "", 0, 0, none⟩).id
        if 20 ≤ batch then st
        else
          historyLoop fetch channelName searchStart searchEnd fuel offsetId3 batch
            { st with sleeps := st.sleeps ++ [300] }

/-- A resolved channel entity (`client.get_entity` success value). -/
structure Entity where
  id : Nat
  title : String
  participants_count : Option Nat
deriving Repr, DecidableEq

/-- The per-channel record `search_channel` stores into
`results["channels"]`, with the run's observable effects. -/
structure ChannelData where
  channel : String
  status : String
  total_messages : Nat
  messages : List MsgData
  errors : List String
  channel_title : Option String
  channel_id : Option Nat
  classified : List Nat
  requests : List String
  sleeps : List Nat
  fetches : Nat
deriving Repr

/-- `search_channel`: resolve, query loop, history scan, then the final
message count. -/
def search_channel (resolve : Except String Entity)
    (client : String → QueryOutcome) (fetch : Nat → List Msg) (fuel : Nat)
    (channelName : String) (queries : List String)
    (searchStart searchEnd : Int) : ChannelData :=
  match resolve with
  | .error e =>
    { channel := channelName, status := "inaccessible", total_messages := 0
      messages := [], errors := ["Cannot access channel: " ++ e]
      channel_title := none, channel_id := none, classified := []
      requests := [], sleeps := [], fetches := 0 }
  | .ok ent =>
    let st := runQueries client channelName searchStart searchEnd queries initState
    let st := historyLoop fetch channelName searchStart searchEnd fuel 0 0 st
    { channel := channelName, status := "accessible"
      total_messages := st.messages.length, messages := st.messages
      errors := st.errors, channel_title := some ent.title
      channel_id := some ent.id, classified := st.classified
      requests := st.requests, sleeps := st.sleeps, fetches := st.fetches }

/-- The channel loop of `main`: every target channel is processed, in
list order, whatever happened to the previous ones. -/
def runChannels (resolve : String → Except String Entity)
    (client : String → String → QueryOutcome)
    (fetch : String → Nat → List Msg) (fuel : Nat) (channels : List String)
    (queries : List String) (searchStart searchEnd : Int) :
    List (String × ChannelData) :=
  channels.map (fun ch =>
    (ch, search_channel (resolve ch) (client ch) (fetch ch) fuel ch queries
      searchStart searchEnd))

/-! ### The history retrieval loop of `telegram_niemci_extended_search.py` -/

/-- Result of the extended-search history retrieval: the `all_messages`
accumulator and the number of `GetHistoryRequest` calls. -/
structure NiemciHistory where
  all_messages : List Msg
  fetches : Nat
deriving Repr

/-- The `while True` retrieval loop of `search_niemci_extended` (lines
132–161): fetch a page, keep the in-window messages, stop only on an
empty page or a page shorter than 100, else continue from the last
message id of the page.  The window filter keeps a message exactly when
`SEARCH_START_DATE <= msg.date <= SEARCH_END_DATE`. -/
def niemciHistoryLoop (fetch : Nat → List Msg) (searchStart searchEnd : Int) :
    Nat → Nat → List Msg → Nat → NiemciHistory
  | 0, _, acc, calls => { all_messages := acc, fetches := calls }
  | fuel + 1, offsetId, acc, calls =>
    let page := fetch offsetId
    let calls := calls + 1
    if page.isEmpty then { all_messages := acc, fetches := calls }
    else
      let acc := acc ++ page.filter (fun m => searchStart ≤ m.date && m.date ≤ searchEnd)
      if page.length < 100 then { all_messages := acc, fetches := calls }
      else
        niemciHistoryLoop fetch searchStart searchEnd fuel
          (page.getLastD ⟨0, 0, "", 0, 0, none⟩).id acc calls

/-! ### Derived accessors and invariants used by the theorems -/

/-- A field of a built document. -/
def docField (d : Json) (key : String) : Option Json :=
  match d with
  | .obj kvs => jlookup kvs key
  | _ => none

/-- The `_id` of a built document. -/
def docId (d : Json) : Option Json := docField d "_id"

/-- The `source_file` of a built document. -/
def docSourceFile (d : Json) : Option Json := docField d "source_file"

/-- The `raw_source` of a built document. -/
def docRawSource (d : Json) : Option Json := docField d "raw_source"

/-- The deduplication invariant of one `search_channel` run: no message
id is classified twice, classified ids were marked seen, and the
collected messages are (in order) a subsequence of the classification
log. -/
def SearchInv (st : SearchState) : Prop :=
  st.classified.Nodup ∧ (∀ i ∈ st.classified, i ∈ st.seen) ∧
  (st.messages.map MsgData.message_id).Sublist st.classified

/-- A collected message record lies inside the search window. -/
def mdInWindow (searchStart searchEnd : Int) (md : MsgData) : Bool :=
  decide (searchStart ≤ md.date) && decide (md.date ≤ searchEnd)

/-- A raw message lies inside the search window. -/
def msgInWindow (searchStart searchEnd : Int) (m : Msg) : Bool :=
  decide (searchStart ≤ m.date) && decide (m.date ≤ searchEnd)

/-! ### Concrete inputs used by witnesses and counterexamples -/

/-- A client whose query "a" fails with a flood-wait signal carrying a
5000 ms server hint; every other query returns an empty page. -/
def c4client : String → QueryOutcome := fun q =>
  if q = "a" then .exn "FLOOD WAIT" (some 5000) else .ok []

/-- A client delivering one message with an empty body. -/
def c3client : String → QueryOutcome := fun _ =>
  .ok [⟨7, 5, "", 0, 0, none⟩]

/-- A full first history page (100 messages, descending ids, all dated
before the window start). -/
def c5page : List Msg := (List.range 100).map (fun i => ⟨100 - i, -5, "", 0, 0, none⟩)

/-- History fetcher: the full pre-window page at cursor 0, nothing
after it. -/
def c5fetch : Nat → List Msg := fun off => if off = 0 then c5page else []

/-- A resolver that fails on channel "@a" only. -/
def c8resolve : String → Except String Entity := fun ch =>
  if ch = "@a" then .error "boom" else .ok ⟨1, "t", none⟩

/-- One walked report directory holding one JSON file. -/
def c9walk : List WalkDir := [⟨"reports/rep_1/raw_data", [("a.json", .obj [])]⟩]

/-- A connection on which creating the derived index raises. -/
def c9es : ESState := ⟨[], ["osint_rep_1"]⟩

/-- A well-formed SERP payload with one organic result. -/
def c1raw : Json :=
  .obj [("search_parameters", .obj [("q", .str "bau")]),
        ("organic_results", .arr [.obj [("title", .str "T1")]])]

/-! ## Helper lemmas -/

theorem subList_nil (hay : List Char) : subList [] hay = true := by
  cases hay <;> simp [subList, headMatch]

theorem headMatch_append {n h e : List Char} (hm : headMatch n h = true) :
    headMatch n (h ++ e) = true := by
  induction n generalizing h with
  | nil => simp [headMatch]
  | cons c ns ih =>
    cases h with
    | nil => simp [headMatch] at hm
    | cons x hs =>
      simp only [headMatch, Bool.and_eq_true] at hm
      simp only [List.cons_append, headMatch, Bool.and_eq_true]
      exact ⟨hm.1, ih hm.2⟩

theorem subList_append {n h e : List Char} (hs : subList n h = true) :
    subList n (h ++ e) = true := by
  induction h with
  | nil =>
    cases n with
    | nil => exact subList_nil e
    | cons c ns => simp [subList, headMatch] at hs
  | cons x hs2 ih =>
    simp only [subList, Bool.or_eq_true] at hs
    simp only [List.cons_append, subList, Bool.or_eq_true]
    rcases hs with h1 | h2
    · exact Or.inl (headMatch_append h1)
    · exact Or.inr (ih h2)

theorem strContains_append {a b n : String} (h : strContains a n = true) :
    strContains (a ++ b) n = true := by
  unfold strContains at h ⊢
  rw [String.data_append]
  exact subList_append h

theorem pyLower_append (a b : String) : pyLower (a ++ b) = pyLower a ++ pyLower b := by
  unfold pyLower
  rw [String.data_append, List.map_append]
  rfl

theorem onlyDigits_append (a b : String) :
    onlyDigits (a ++ b) = onlyDigits a ++ onlyDigits b := by
  unfold onlyDigits
  rw [String.data_append, List.filter_append]
  rfl

theorem textLower_eq (t : String) : (if t = "" then "" else pyLower t) = pyLower t := by
  by_cases h : t = ""
  · subst h; rfl
  · rw [if_neg h]

theorem foldl_scoreStep_fst_le (tbl : List String) (hay hay' : String) (w : Nat)
    (tag : String) (hmono : ∀ k, strContains hay k = true → strContains hay' k = true) :
    ∀ a b : Nat × List String, a.1 ≤ b.1 →
      (tbl.foldl (scoreStep hay w tag) a).1 ≤ (tbl.foldl (scoreStep hay' w tag) b).1 := by
  induction tbl with
  | nil => intro a b h; simpa using h
  | cons k ks ih =>
    intro a b h
    simp only [List.foldl_cons]
    apply ih
    unfold scoreStep
    by_cases hk : strContains hay k = true
    · rw [if_pos hk, if_pos (hmono k hk)]
      exact Nat.add_le_add_right h w
    · rw [if_neg hk]
      by_cases hk2 : strContains hay' k = true
      · rw [if_pos hk2]; exact Nat.le_trans h (Nat.le_add_right _ _)
      · rw [if_neg hk2]; exact h

theorem filter_length_mono {p q : α → Bool} (l : List α)
    (h : ∀ a, p a = true → q a = true) :
    (l.filter p).length ≤ (l.filter q).length := by
  induction l with
  | nil => simp
  | cons x xs ih =>
    by_cases hx : p x = true
    · rw [List.filter_cons_of_pos hx, List.filter_cons_of_pos (h x hx)]
      simpa using ih
    · rw [List.filter_cons_of_neg (by simpa using hx)]
      cases hq : q x with
      | false => rw [List.filter_cons_of_neg (by simp [hq])]; exact ih
      | true =>
        rw [List.filter_cons_of_pos hq]
        exact Nat.le_trans ih (Nat.le_succ _)

/-! ## Claims -/

/-- C6: for every message text, `score_message`'s relevance score never
exceeds the fixed ceiling 20 and `classify_message`'s red-flag score
never exceeds its fixed ceiling 10; appending further text (in
particular, a matching indicator keyword) never lowers either score. -/
theorem c6_score_bounded_monotone (t u : String) :
    (score_message t).relevance_score ≤ 20 ∧
    (score_message t).relevance_score ≤ (score_message (t ++ u)).relevance_score ∧
    (classify_message t).red_flag_score ≤ 10 ∧
    (classify_message t).red_flag_score ≤ (classify_message (t ++ u)).red_flag_score := by
  have hlow : ∀ k, strContains (pyLower t) k = true →
      strContains (pyLower (t ++ u)) k = true := by
    intro k hk
    rw [pyLower_append]
    exact strContains_append hk
  have hdig : ∀ k, strContains (onlyDigits t) k = true →
      strContains (onlyDigits (t ++ u)) k = true := by
    intro k hk
    rw [onlyDigits_append]
    exact strContains_append hk
  refine ⟨?_, ?_, ?_, ?_⟩
  · exact Nat.min_le_right _ _
  · unfold score_message
    simp only [textLower_eq]
    apply min_le_min _ (Nat.le_refl 20)
    exact foldl_scoreStep_fst_le _ _ _ _ _ hlow _ _
      (foldl_scoreStep_fst_le _ _ _ _ _ hlow _ _
        (foldl_scoreStep_fst_le _ _ _ _ _ hlow _ _
          (foldl_scoreStep_fst_le _ _ _ _ _ hlow _ _
            (foldl_scoreStep_fst_le _ _ _ _ _ hdig _ _ (Nat.le_refl 0)))))
  · exact Nat.min_le_right _ _
  · unfold classify_message
    simp only [textLower_eq]
    apply min_le_min _ (Nat.le_refl 10)
    exact filter_length_mono _ (fun k => hlow k)

/-- C7: the classifier is a total, deterministic pure function of the
message text: identical texts produce identical scores, tags, indicator
lists, and extracted phone lists (totality is witnessed by
`score_message`, `classify_message` and `extract_phones` being total
functions of the text alone). -/
theorem c7_classifier_deterministic (t₁ t₂ : String) (h : t₁ = t₂) :
    score_message t₁ = score_message t₂ ∧
    classify_message t₁ = classify_message t₂ ∧
    extract_phones t₁ = extract_phones t₂ := by
  subst h
  exact ⟨rfl, rfl, rfl⟩

/-- Witness for C7 at the empty string. -/
theorem c7_witness :
    score_message "" = score_message "" ∧
    classify_message "" = classify_message "" ∧
    extract_phones "" = extract_phones "" :=
  c7_classifier_deterministic "" "" rfl

theorem processSearchMsgs_effects (ch q : String) (s e : Int) :
    ∀ (ms : List Msg) (st : SearchState),
      (processSearchMsgs ch q s e ms st).requests = st.requests ∧
      (processSearchMsgs ch q s e ms st).sleeps = st.sleeps ∧
      (processSearchMsgs ch q s e ms st).errors = st.errors ∧
      (processSearchMsgs ch q s e ms st).fetches = st.fetches := by
  intro ms
  induction ms with
  | nil => intro st; exact ⟨rfl, rfl, rfl, rfl⟩
  | cons m rest ih =>
    intro st
    unfold processSearchMsgs
    split
    · exact ih st
    · split
      · exact ih st
      · split
        · exact ih st
        · exact ih _

theorem processHistoryMsgs_effects (ch : String) (s e : Int) :
    ∀ (ms : List Msg) (st : SearchState),
      (processHistoryMsgs ch s e ms st).1.requests = st.requests ∧
      (processHistoryMsgs ch s e ms st).1.sleeps = st.sleeps ∧
      (processHistoryMsgs ch s e ms st).1.errors = st.errors ∧
      (processHistoryMsgs ch s e ms st).1.fetches = st.fetches := by
  intro ms
  induction ms with
  | nil => intro st; exact ⟨rfl, rfl, rfl, rfl⟩
  | cons m rest ih =>
    intro st
    unfold processHistoryMsgs
    split
    · exact ih st
    · split
      · exact ih st
      · split
        · exact ⟨rfl, rfl, rfl, rfl⟩
        · split
          · exact ih st
          · dsimp only
            split
            · exact ih _
            · exact ih _

theorem runQueries_spec (client : String → QueryOutcome) (ch : String) (s e : Int) :
    ∀ (qs : List String) (st : SearchState),
      (runQueries client ch s e qs st).requests = st.requests ++ qs ∧
      (runQueries client ch s e qs st).sleeps = st.sleeps ++ qs.flatMap (fun q =>
        match client q with
        | .ok _ => [500]
        | .exn err _ => if isFloodText err then [30000] else []) ∧
      (runQueries client ch s e qs st).fetches = st.fetches := by
  intro qs
  induction qs with
  | nil => intro st; simp [runQueries]
  | cons q rest ih =>
    intro st
    unfold runQueries
    cases hcq : client q with
    | ok msgs =>
      have hp := processSearchMsgs_effects ch q s e msgs
        { st with requests := st.requests ++ [q] }
      have hr := ih { processSearchMsgs ch q s e msgs
        { st with requests := st.requests ++ [q] } with
          sleeps := (processSearchMsgs ch q s e msgs
            { st with requests := st.requests ++ [q] }).sleeps ++ [500] }
      refine ⟨?_, ?_, ?_⟩
      · rw [hr.1]; simp [hp.1]
      · rw [hr.2.1]; simp [hp.2.1, hcq]
      · rw [hr.2.2]; simp [hp.2.2.2]
    | exn err hint =>
      dsimp only
      by_cases hf : isFloodText err = true
      · have hr := ih { st with
          requests := st.requests ++ [q]
          errors := st.errors ++ ["Query " ++ q ++ ": " ++ err]
          sleeps := st.sleeps ++ [30000] }
        rw [if_pos hf]
        refine ⟨?_, ?_, ?_⟩
        · rw [hr.1]; simp
        · rw [hr.2.1]; simp [hcq, hf]
        · exact hr.2.2
      · have hr := ih { st with
          requests := st.requests ++ [q]
          errors := st.errors ++ ["Query " ++ q ++ ": " ++ err] }
        rw [if_neg hf]
        refine ⟨?_, ?_, ?_⟩
        · rw [hr.1]; simp
        · rw [hr.2.1]; simp [hcq, hf]
        · exact hr.2.2

theorem historyLoop_fetches_once (fetch : Nat → List Msg) (ch : String)
    (s e : Int) (n : Nat) (st : SearchState) :
    (historyLoop fetch ch s e (n + 1) 0 0 st).fetches = st.fetches + 1 := by
  unfold historyLoop
  dsimp only
  split
  · rfl
  · have hp := (processHistoryMsgs_effects ch s e (fetch 0)
      { st with fetches := st.fetches + 1 }).2.2.2
    cases hr : (processHistoryMsgs ch s e (fetch 0)
      { st with fetches := st.fetches + 1 }).2 <;> simp [hr, hp]

/-- C10: in the @Niemci/DE4RU collector, the history pagination loop of
`search_channel` issues exactly one `GetHistoryRequest` per accessible
channel: the `history_offset_id == 0` stop check runs before the cursor
is first advanced, so no second page is ever fetched and the 20-batch
cap is unreachable. -/
theorem c10_single_history_page (ent : Entity) (client : String → QueryOutcome)
    (fetch : Nat → List Msg) (fuel : Nat) (h : 1 ≤ fuel) (ch : String)
    (qs : List String) (s e : Int) :
    (search_channel (.ok ent) client fetch fuel ch qs s e).fetches = 1 := by
  obtain ⟨n, rfl⟩ := Nat.exists_eq_add_of_le h
  simp only [search_channel]
  rw [Nat.add_comm 1 n, historyLoop_fetches_once,
    (runQueries_spec client ch s e qs initState).2.2]
  rfl

/-- Witness for C10 at fuel 1 on a trivial client. -/
theorem c10_witness :
    (search_channel (.ok ⟨1, "t", none⟩) (fun _ => .ok []) (fun _ => []) 1 "@c" [] 0 1).fetches = 1 :=
  c10_single_history_page ⟨1, "t", none⟩ (fun _ => .ok []) (fun _ => []) 1
    (by decide) "@c" [] 0 1

/-- C8: an inaccessible channel (resolution fails) is marked
`inaccessible` with its error recorded and zero messages, it still
appears in the run's channel map, and every channel of the list —
before and after it — is still processed (the map over the channel
list never aborts). -/
theorem c8_inaccessible_channel_isolated (resolve : String → Except String Entity)
    (client : String → String → QueryOutcome) (fetch : String → Nat → List Msg)
    (fuel : Nat) (channels queries : List String) (s e : Int)
    (ch err : String) (h1 : ch ∈ channels) (h2 : resolve ch = .error err) :
    (runChannels resolve client fetch fuel channels queries s e).map Prod.fst = channels ∧
    (ch, search_channel (.error err) (client ch) (fetch ch) fuel ch queries s e) ∈
      runChannels resolve client fetch fuel channels queries s e ∧
    (search_channel (.error err) (client ch) (fetch ch) fuel ch queries s e).status
      = "inaccessible" ∧
    (search_channel (.error err) (client ch) (fetch ch) fuel ch queries s e).total_messages
      = 0 ∧
    (search_channel (.error err) (client ch) (fetch ch) fuel ch queries s e).errors
      = ["Cannot access channel: " ++ err] := by
  refine ⟨?_, ?_, rfl, rfl, rfl⟩
  · show List.map Prod.fst (channels.map fun c =>
        (c, search_channel (resolve c) (client c) (fetch c) fuel c queries s e)) = channels
    rw [List.map_map]
    exact List.map_id channels
  · have hm := List.mem_map_of_mem
      (fun c => (c, search_channel (resolve c) (client c) (fetch c) fuel c queries s e)) h1
    dsimp only at hm
    rw [h2] at hm
    exact hm

/-- Witness for C8: channel "@a" fails to resolve, "@b" follows it and
is still processed. -/
theorem c8_witness :
    (runChannels c8resolve (fun _ _ => .ok []) (fun _ _ => []) 1 ["@a", "@b"] [] 0 1).map
      Prod.fst = ["@a", "@b"] ∧
    (search_channel (.error "boom") ((fun (_ : String) (_ : String) => QueryOutcome.ok [])
      "@a") ((fun (_ : String) (_ : Nat) => ([] : List Msg)) "@a") 1 "@a" [] 0 1).status
      = "inaccessible" :=
  ⟨(c8_inaccessible_channel_isolated c8resolve (fun _ _ => .ok []) (fun _ _ => []) 1
      ["@a", "@b"] [] 0 1 "@a" "boom" (by decide) (by rfl)).1,
   (c8_inaccessible_channel_isolated c8resolve (fun _ _ => .ok []) (fun _ _ => []) 1
      ["@a", "@b"] [] 0 1 "@a" "boom" (by decide) (by rfl)).2.2.1⟩

/-- Counterexample to C4 as stated: query "a" rate-limits with a server
hint of 5000 ms, yet the controller sleeps the fixed 30000 ms (never
5000) and issues "a" exactly once — the rate-limited request is skipped,
not retried. -/
theorem c4_counterexample :
    (runQueries c4client "@c" 0 10 ["a", "b"] initState).requests = ["a", "b"] ∧
    (runQueries c4client "@c" 0 10 ["a", "b"] initState).sleeps = [30000, 500] := by
  decide

/-- C4 amended: on a flood-wait signal the query loop records the error,
sleeps the fixed 30 s regardless of any server hint, and moves on; each
query of the list is issued exactly once (successful pages are followed
by the 0.5 s courtesy sleep; non-flood errors sleep nothing). -/
theorem c4_flood_wait_fixed_sleep_no_retry (client : String → QueryOutcome)
    (ch : String) (s e : Int) (qs : List String) :
    (runQueries client ch s e qs initState).requests = qs ∧
    (runQueries client ch s e qs initState).sleeps = qs.flatMap (fun q =>
      match client q with
      | .ok _ => [500]
      | .exn err _ => if isFloodText err then [30000] else []) := by
  have h := runQueries_spec client ch s e qs initState
  refine ⟨?_, ?_⟩
  · rw [h.1]; rfl
  · rw [h.2.1]; rfl

theorem processSearchMsgs_inv (ch q : String) (s e : Int) :
    ∀ (ms : List Msg) (st : SearchState), SearchInv st →
      SearchInv (processSearchMsgs ch q s e ms st) := by
  intro ms
  induction ms with
  | nil => intro st h; exact h
  | cons m rest ih =>
    intro st h
    unfold processSearchMsgs
    by_cases h1 : m.id ∈ st.seen
    · rw [if_pos h1]; exact ih st h
    · rw [if_neg h1]
      by_cases h2 : m.text = ""
      · rw [if_pos h2]; exact ih st h
      · rw [if_neg h2]
        by_cases h3 : (decide (m.date < s) || decide (e < m.date)) = true
        · rw [if_pos h3]; exact ih st h
        · rw [if_neg h3]
          dsimp only
          apply ih
          obtain ⟨hnd, hsub, hsl⟩ := h
          refine ⟨?_, ?_, ?_⟩
          · rw [List.nodup_append]
            refine ⟨hnd, List.nodup_singleton _, ?_⟩
            intro a ha hb
            rw [List.mem_singleton] at hb
            subst hb
            exact h1 (hsub _ ha)
          · intro i hi
            rcases List.mem_append.mp hi with hi2 | hi2
            · exact List.mem_cons_of_mem _ (hsub i hi2)
            · rw [List.mem_singleton] at hi2
              subst hi2
              exact List.mem_cons_self _ _
          · rw [List.map_append]
            exact hsl.append (List.Sublist.refl _)

theorem processHistoryMsgs_inv (ch : String) (s e : Int) :
    ∀ (ms : List Msg) (st : SearchState), SearchInv st →
      SearchInv (processHistoryMsgs ch s e ms st).1 := by
  intro ms
  induction ms with
  | nil => intro st h; exact h
  | cons m rest ih =>
    intro st h
    unfold processHistoryMsgs
    by_cases h1 : m.id ∈ st.seen
    · rw [if_pos h1]; exact ih st h
    · rw [if_neg h1]
      by_cases h2 : m.text = ""
      · rw [if_pos h2]; exact ih st h
      · rw [if_neg h2]
        by_cases h3 : m.date < s
        · rw [if_pos h3]; exact h
        · rw [if_neg h3]
          by_cases h4 : e < m.date
          · rw [if_pos h4]; exact ih st h
          · rw [if_neg h4]
            dsimp only
            obtain ⟨hnd, hsub, hsl⟩ := h
            have hnd2 : (st.classified ++ [m.id]).Nodup := by
              rw [List.nodup_append]
              refine ⟨hnd, List.nodup_singleton _, ?_⟩
              intro a ha hb
              rw [List.mem_singleton] at hb
              subst hb
              exact h1 (hsub _ ha)
            have hsub2 : ∀ i ∈ st.classified ++ [m.id], i ∈ m.id :: st.seen := by
              intro i hi
              rcases List.mem_append.mp hi with hi2 | hi2
              · exact List.mem_cons_of_mem _ (hsub i hi2)
              · rw [List.mem_singleton] at hi2
                subst hi2
                exact List.mem_cons_self _ _
            split
            · apply ih
              refine ⟨hnd2, hsub2, ?_⟩
              rw [List.map_append]
              exact hsl.append (List.Sublist.refl _)
            · apply ih
              refine ⟨hnd2, hsub2, ?_⟩
              exact hsl.trans (List.sublist_append_left _ _)

theorem runQueries_inv (client : String → QueryOutcome) (ch : String) (s e : Int) :
    ∀ (qs : List String) (st : SearchState), SearchInv st →
      SearchInv (runQueries client ch s e qs st) := by
  intro qs
  induction qs with
  | nil => intro st h; exact h
  | cons q rest ih =>
    intro st h
    unfold runQueries
    cases client q with
    | ok msgs =>
      dsimp only
      exact ih _ (processSearchMsgs_inv ch q s e msgs _ h)
    | exn err hint =>
      dsimp only
      split
      · exact ih _ h
      · exact ih _ h

theorem historyLoop_inv (fetch : Nat → List Msg) (ch : String) (s e : Int) :
    ∀ (fuel offsetId batch : Nat) (st : SearchState), SearchInv st →
      SearchInv (historyLoop fetch ch s e fuel offsetId batch st) := by
  intro fuel
  induction fuel with
  | zero => intro _ _ st h; exact h
  | succ n ih =>
    intro offsetId batch st h
    unfold historyLoop
    dsimp only
    split
    · exact h
    · have hp := processHistoryMsgs_inv ch s e (fetch offsetId)
        { st with fetches := st.fetches + 1 } h
      by_cases hx : (if (processHistoryMsgs ch s e (fetch offsetId)
          { st with fetches := st.fetches + 1 }).2 = true then 0 else offsetId) = 0
      · rw [if_pos hx]; exact hp
      · rw [if_neg hx]
        by_cases hb : 20 ≤ batch + 1
        · rw [if_pos hb]; exact hp
        · rw [if_neg hb]; exact ih _ _ _ hp

/-- Counterexample to C3 as stated: a single (channel, message id) pair
delivered once with an empty body is admitted zero times — neither
classified nor appended — not exactly once. -/
theorem c3_counterexample :
    (search_channel (.ok ⟨1, "t", none⟩) c3client (fun _ => []) 1 "@c" ["q"] 0 10).messages
      = [] ∧
    (search_channel (.ok ⟨1, "t", none⟩) c3client (fun _ => []) 1 "@c" ["q"] 0 10).classified
      = [] := by
  decide

/-- C3 amended: over the whole collection loop of a channel — query
searches and the history scan alike — each distinct message id is
admitted at most once: the classification log holds no id twice (a
re-delivered id is suppressed before classification), and the collected
message list, whose ids form a subsequence of that log, holds no id
twice either.  An occurrence can be admitted zero times when it fails
the admission filters (empty body, outside the window, or — in the
history scan — not relevant). -/
theorem c3_dedup_at_most_once (resolve : Except String Entity)
    (client : String → QueryOutcome) (fetch : Nat → List Msg) (fuel : Nat)
    (ch : String) (qs : List String) (s e : Int) :
    ((search_channel resolve client fetch fuel ch qs s e).messages.map
        MsgData.message_id).Nodup ∧
    (search_channel resolve client fetch fuel ch qs s e).classified.Nodup ∧
    ((search_channel resolve client fetch fuel ch qs s e).messages.map
        MsgData.message_id).Sublist
      (search_channel resolve client fetch fuel ch qs s e).classified := by
  cases resolve with
  | error err => simp [search_channel]
  | ok ent =>
    have h0 : SearchInv initState :=
      ⟨List.nodup_nil, ⟨fun i hi => absurd hi (List.not_mem_nil i), List.nil_sublist _⟩⟩
    have h2 := historyLoop_inv fetch ch s e fuel 0 0
      (runQueries client ch s e qs initState)
      (runQueries_inv client ch s e qs initState h0)
    obtain ⟨hnd, _, hsl⟩ := h2
    exact ⟨hnd.sublist hsl, hnd, hsl⟩

theorem processSearchMsgs_window (ch q : String) (s e : Int) :
    ∀ (ms : List Msg) (st : SearchState),
      st.messages.all (mdInWindow s e) = true →
      (processSearchMsgs ch q s e ms st).messages.all (mdInWindow s e) = true := by
  intro ms
  induction ms with
  | nil => intro st h; exact h
  | cons m rest ih =>
    intro st h
    unfold processSearchMsgs
    by_cases h1 : m.id ∈ st.seen
    · rw [if_pos h1]; exact ih st h
    · rw [if_neg h1]
      by_cases h2 : m.text = ""
      · rw [if_pos h2]; exact ih st h
      · rw [if_neg h2]
        by_cases h3 : (decide (m.date < s) || decide (e < m.date)) = true
        · rw [if_pos h3]; exact ih st h
        · rw [if_neg h3]
          dsimp only
          apply ih
          rw [List.all_append, h]
          simp only [Bool.or_eq_true, decide_eq_true_eq, not_or] at h3
          simp [mdInWindow, mkMsgData, Int.not_lt.mp h3.1, Int.not_lt.mp h3.2]

theorem processHistoryMsgs_window (ch : String) (s e : Int) :
    ∀ (ms : List Msg) (st : SearchState),
      st.messages.all (mdInWindow s e) = true →
      (processHistoryMsgs ch s e ms st).1.messages.all (mdInWindow s e) = true := by
  intro ms
  induction ms with
  | nil => intro st h; exact h
  | cons m rest ih =>
    intro st h
    unfold processHistoryMsgs
    by_cases h1 : m.id ∈ st.seen
    · rw [if_pos h1]; exact ih st h
    · rw [if_neg h1]
      by_cases h2 : m.text = ""
      · rw [if_pos h2]; exact ih st h
      · rw [if_neg h2]
        by_cases h3 : m.date < s
        · rw [if_pos h3]; exact h
        · rw [if_neg h3]
          by_cases h4 : e < m.date
          · rw [if_pos h4]; exact ih st h
          · rw [if_neg h4]
            dsimp only
            split
            · apply ih
              rw [List.all_append, h]
              simp [mdInWindow, mkMsgData, Int.not_lt.mp h3, Int.not_lt.mp h4]
            · exact ih _ h

theorem runQueries_window (client : String → QueryOutcome) (ch : String) (s e : Int) :
    ∀ (qs : List String) (st : SearchState),
      st.messages.all (mdInWindow s e) = true →
      (runQueries client ch s e qs st).messages.all (mdInWindow s e) = true := by
  intro qs
  induction qs with
  | nil => intro st h; exact h
  | cons q rest ih =>
    intro st h
    unfold runQueries
    cases client q with
    | ok msgs =>
      dsimp only
      exact ih _ (processSearchMsgs_window ch q s e msgs _ h)
    | exn err hint =>
      dsimp only
      split
      · exact ih _ h
      · exact ih _ h

theorem historyLoop_window (fetch : Nat → List Msg) (ch : String) (s e : Int) :
    ∀ (fuel offsetId batch : Nat) (st : SearchState),
      st.messages.all (mdInWindow s e) = true →
      (historyLoop fetch ch s e fuel offsetId batch st).messages.all (mdInWindow s e)
        = true := by
  intro fuel
  induction fuel with
  | zero => intro _ _ st h; exact h
  | succ n ih =>
    intro offsetId batch st h
    unfold historyLoop
    dsimp only
    split
    · exact h
    · have hp := processHistoryMsgs_window ch s e (fetch offsetId)
        { st with fetches := st.fetches + 1 } h
      by_cases hx : (if (processHistoryMsgs ch s e (fetch offsetId)
          { st with fetches := st.fetches + 1 }).2 = true then 0 else offsetId) = 0
      · rw [if_pos hx]; exact hp
      · rw [if_neg hx]
        by_cases hb : 20 ≤ batch + 1
        · rw [if_pos hb]; exact hp
        · rw [if_neg hb]; exact ih _ _ _ hp

theorem niemciHistoryLoop_window (fetch : Nat → List Msg) (s e : Int) :
    ∀ (fuel offsetId : Nat) (acc : List Msg) (calls : Nat),
      acc.all (msgInWindow s e) = true →
      (niemciHistoryLoop fetch s e fuel offsetId acc calls).all_messages.all
        (msgInWindow s e) = true := by
  intro fuel
  induction fuel with
  | zero => intro _ acc _ h; exact h
  | succ n ih =>
    intro offsetId acc calls h
    unfold niemciHistoryLoop
    dsimp only
    have hfil : ((fetch offsetId).filter
        (fun m => decide (s ≤ m.date) && decide (m.date ≤ e))).all (msgInWindow s e)
        = true := by
      rw [List.all_eq_true]
      intro x hx
      exact (List.mem_filter.mp hx).2
    split
    · exact h
    · split
      · rw [List.all_append, h, hfil]; rfl
      · apply ih
        rw [List.all_append, h, hfil]; rfl

/-- Counterexample to C5 as stated: in the extended-search history
retrieval, a full first page whose messages are all dated before the
window start does not stop the pagination — a second page is still
fetched (the loop stops only on an empty or short page). -/
theorem c5_counterexample :
    (niemciHistoryLoop c5fetch 0 10 5 0 [] 0).fetches = 2 ∧
    c5page.all (fun m => decide (m.date < 0)) = true := by
  decide

/-- C5 amended: neither scanner ever includes a message dated outside
the configured window in its collected list — the extended-search
retrieval filters each page to the window, and the @Niemci/DE4RU
collector's query loop and history scan admit only in-window messages —
but pagination does not stop at the window boundary: it stops on an
empty or short page (extended search) or unconditionally after the
first page (DE4RU collector, see C10). -/
theorem c5_no_out_of_window_message (fetch fetchD : Nat → List Msg) (s e : Int)
    (fuel fuelD offsetId : Nat) (resolve : Except String Entity)
    (client : String → QueryOutcome) (ch : String) (qs : List String) :
    (niemciHistoryLoop fetch s e fuel offsetId [] 0).all_messages.all
      (msgInWindow s e) = true ∧
    (search_channel resolve client fetchD fuelD ch qs s e).messages.all
      (mdInWindow s e) = true := by
  refine ⟨niemciHistoryLoop_window fetch s e fuel offsetId [] 0 rfl, ?_⟩
  cases resolve with
  | error err => rfl
  | ok ent =>
    exact historyLoop_window fetchD ch s e fuelD 0 0 _
      (runQueries_window client ch s e qs initState rfl)

theorem not_isEmpty_iff (l : List α) : (!l.isEmpty) = true ↔ l ≠ [] := by
  cases l <;> simp

/-- Counterexample to C9 as stated: creating the destination index
fails (`ensure_index_exists` returns false), yet `ingest_directory`
still issues the bulk write of the collected batch against it. -/
theorem c9_counterexample :
    ensure_index_exists c9es "osint_rep_1" = false ∧
    (ingest_directory c9walk c9es "osint_" "20990101_000000" "now").indices
      = ["osint_rep_1"] ∧
    (ingest_directory c9walk c9es "osint_" "20990101_000000" "now").createResults
      = [("osint_rep_1", false)] ∧
    (ingest_directory c9walk c9es "osint_" "20990101_000000" "now").bulkIssued = true := by
  refine ⟨rfl, rfl, rfl, rfl⟩

/-- C9 amended: an index-creation failure is logged and reported as
`False` by `ensure_index_exists`, but `ingest_directory` ignores that
result: the collected batch and the decision to issue the bulk write do
not depend on the connection state at all, and the bulk write is issued
exactly when the batch is non-empty. -/
theorem c9_create_failure_does_not_stop_bulk (walk : List WalkDir)
    (es es2 : ESState) (p ts now : String) :
    (ingest_directory walk es p ts now).actions
      = (ingest_directory walk es2 p ts now).actions ∧
    (ingest_directory walk es p ts now).bulkIssued
      = (ingest_directory walk es2 p ts now).bulkIssued ∧
    ((ingest_directory walk es p ts now).bulkIssued = true ↔
      (ingest_directory walk es p ts now).actions ≠ []) := by
  refine ⟨rfl, rfl, ?_⟩
  exact not_isEmpty_iff _

theorem iterableItemsOk_iter {v : Json} (h : iterableItemsOk v = true) :
    ∃ items, pyIter v = .ok items ∧ ∀ i ∈ items, jIsObj i = true := by
  unfold iterableItemsOk at h
  cases v with
  | arr xs => exact ⟨xs, rfl, by simpa [pyIter, List.all_eq_true] using h⟩
  | str s => exact ⟨_, rfl, by simpa [pyIter, List.all_eq_true] using h⟩
  | obj kvs => exact ⟨_, rfl, by simpa [pyIter, List.all_eq_true] using h⟩
  | null => simp [pyIter] at h
  | bool b => simp [pyIter] at h
  | num n => simp [pyIter] at h

theorem hasLen_len {v : Json} (h : hasLen v = true) : ∃ n, pyLen v = .ok n := by
  cases v with
  | arr xs => exact ⟨_, rfl⟩
  | str s => exact ⟨_, rfl⟩
  | obj kvs => exact ⟨_, rfl⟩
  | null => simp [hasLen] at h
  | bool b => simp [hasLen] at h
  | num n => simp [hasLen] at h

theorem buildGenericDoc_ok (now fn rid : String) {item : Json}
    (h : jIsObj item = true) : ∃ d, buildGenericDoc now fn rid item = .ok d := by
  cases item with
  | obj kvs =>
    unfold buildGenericDoc
    simp only [pyIn, bindE]
    cases hasKey kvs "source" <;> cases hasKey kvs "uri" <;> cases hasKey kvs "url" <;>
      exact ⟨_, rfl⟩
  | null => simp [jIsObj] at h
  | bool b => simp [jIsObj] at h
  | num n => simp [jIsObj] at h
  | str s => simp [jIsObj] at h
  | arr xs => simp [jIsObj] at h

theorem buildOrganicDoc_ok (now fn rid : String) (sq sl : Json) (idx : Nat)
    {r : Json} (h : jIsObj r = true) :
    ∃ d, buildOrganicDoc now fn rid sq sl idx r = .ok d := by
  cases r with
  | obj kvs => exact ⟨_, rfl⟩
  | null => simp [jIsObj] at h
  | bool b => simp [jIsObj] at h
  | num n => simp [jIsObj] at h
  | str s => simp [jIsObj] at h
  | arr xs => simp [jIsObj] at h

theorem buildQuestionDoc_ok (now fn rid : String) (sq sl : Json) {r : Json}
    (h : jIsObj r = true) : ∃ d, buildQuestionDoc now fn rid sq sl r = .ok d := by
  cases r with
  | obj kvs => exact ⟨_, rfl⟩
  | null => simp [jIsObj] at h
  | bool b => simp [jIsObj] at h
  | num n => simp [jIsObj] at h
  | str s => simp [jIsObj] at h
  | arr xs => simp [jIsObj] at h

theorem buildSearchDoc_ok (now fn rid : String) (sq sl : Json) {r : Json}
    (h : jIsObj r = true) : ∃ d, buildSearchDoc now fn rid sq sl r = .ok d := by
  cases r with
  | obj kvs => exact ⟨_, rfl⟩
  | null => simp [jIsObj] at h
  | bool b => simp [jIsObj] at h
  | num n => simp [jIsObj] at h
  | str s => simp [jIsObj] at h
  | arr xs => simp [jIsObj] at h

theorem buildTelegramDoc_ok (now fn rid : String) (sqs chs : Json) {r : Json}
    (h : jIsObj r = true) : ∃ d, buildTelegramDoc now fn rid sqs chs r = .ok d := by
  cases r with
  | obj kvs => exact ⟨_, rfl⟩
  | null => simp [jIsObj] at h
  | bool b => simp [jIsObj] at h
  | num n => simp [jIsObj] at h
  | str s => simp [jIsObj] at h
  | arr xs => simp [jIsObj] at h

theorem mapE_ok (f : Json → Except PyErr Json) {xs : List Json}
    (h : ∀ x ∈ xs, ∃ y, f x = .ok y) : ∃ ys, mapE f xs = .ok ys := by
  induction xs with
  | nil => exact ⟨[], rfl⟩
  | cons x rest ih =>
    obtain ⟨y, hy⟩ := h x (List.mem_cons_self x rest)
    obtain ⟨ys, hys⟩ := ih (fun a ha => h a (List.mem_cons_of_mem x ha))
    exact ⟨y :: ys, by simp [mapE, hy, hys, bindE]⟩

theorem mapOrganic_ok (now fn rid : String) (sq sl : Json) {xs : List Json}
    (h : ∀ x ∈ xs, jIsObj x = true) :
    ∀ idx, ∃ ys, mapOrganic now fn rid sq sl idx xs = .ok ys := by
  induction xs with
  | nil => exact fun idx => ⟨[], rfl⟩
  | cons x rest ih =>
    intro idx
    obtain ⟨y, hy⟩ := buildOrganicDoc_ok now fn rid sq sl idx
      (h x (List.mem_cons_self x rest))
    obtain ⟨ys, hys⟩ := ih (fun a ha => h a (List.mem_cons_of_mem x ha)) (idx + 1)
    exact ⟨y :: ys, by simp [mapOrganic, hy, hys, bindE]⟩

theorem normalize_serp_ok (now fn rid : String) (kvs : List (String × Json))
    (h1 : jIsObj ((jlookup kvs "search_parameters").getD (.obj [])) = true)
    (h2 : iterableItemsOk ((jlookup kvs "organic_results").getD (.arr [])) = true)
    (h3 : iterableItemsOk ((jlookup kvs "related_questions").getD (.arr [])) = true)
    (h4 : iterableItemsOk ((jlookup kvs "related_searches").getD (.arr [])) = true) :
    ∃ ds, normalize_serp_api_data now (.obj kvs) fn rid = .ok ds := by
  obtain ⟨organic, hi2, ho2⟩ := iterableItemsOk_iter h2
  obtain ⟨questions, hi3, ho3⟩ := iterableItemsOk_iter h3
  obtain ⟨searches, hi4, ho4⟩ := iterableItemsOk_iter h4
  cases hspv : (jlookup kvs "search_parameters").getD (.obj []) with
  | obj spkvs =>
    obtain ⟨d1, hd1⟩ := mapOrganic_ok now fn rid
      ((jlookup spkvs "q").getD (.str ""))
      ((jlookup spkvs "location_used").getD (.str "")) ho2 0
    obtain ⟨d2, hd2⟩ := mapE_ok _ (fun x hx => buildQuestionDoc_ok now fn rid
      ((jlookup spkvs "q").getD (.str ""))
      ((jlookup spkvs "location_used").getD (.str "")) (ho3 x hx))
    obtain ⟨d3, hd3⟩ := mapE_ok _ (fun x hx => buildSearchDoc_ok now fn rid
      ((jlookup spkvs "q").getD (.str ""))
      ((jlookup spkvs "location_used").getD (.str "")) (ho4 x hx))
    exact ⟨d1 ++ d2 ++ d3, by
      simp only [normalize_serp_api_data, pyGet, bindE, hspv, hi2, hi3, hi4,
        hd1, hd2, hd3]⟩
  | null => rw [hspv] at h1; simp [jIsObj] at h1
  | bool b => rw [hspv] at h1; simp [jIsObj] at h1
  | num n => rw [hspv] at h1; simp [jIsObj] at h1
  | str s => rw [hspv] at h1; simp [jIsObj] at h1
  | arr xs => rw [hspv] at h1; simp [jIsObj] at h1

theorem normalize_telegram_ok (now fn rid : String) (kvs : List (String × Json))
    (hm : iterableItemsOk ((jlookup kvs "messages").getD (.arr [])) = true)
    (hrest : pyTruthy ((jlookup kvs "messages").getD (.arr [])) = true ∨
      (hasLen ((jlookup kvs "search_queries").getD (.arr [])) = true ∧
       hasLen ((jlookup kvs "channels_searched").getD (.arr [])) = true)) :
    ∃ ds, normalize_telegram_osint_data now (.obj kvs) fn rid = .ok ds := by
  obtain ⟨msgs, hi, ho⟩ := iterableItemsOk_iter hm
  obtain ⟨docs, hdocs⟩ := mapE_ok _ (fun x hx => buildTelegramDoc_ok now fn rid
    ((jlookup kvs "search_queries").getD (.arr []))
    ((jlookup kvs "channels_searched").getD (.arr [])) (ho x hx))
  by_cases ht : pyTruthy ((jlookup kvs "messages").getD (.arr [])) = true
  · simp only [normalize_telegram_osint_data, pyGet, bindE, hi, hdocs, ht, if_true]
    exact ⟨docs, rfl⟩
  · rcases hrest with ht2 | ⟨hq, hc⟩
    · exact absurd ht2 ht
    · obtain ⟨nq, hnq⟩ := hasLen_len hq
      obtain ⟨nc, hnc⟩ := hasLen_len hc
      simp only [normalize_telegram_osint_data, pyGet, bindE, hi, hdocs, ht,
        if_false, hnq, hnc, Bool.false_eq_true]
      exact ⟨_, rfl⟩

theorem normalize_comprehensive_ok (now fn rid : String) (kvs : List (String × Json)) :
    ∃ ds, normalize_comprehensive_report now (.obj kvs) fn rid = .ok ds :=
  ⟨_, rfl⟩

/-- Counterexample to C2 as stated: the well-formed JSON value `[0]`
makes the dispatcher raise a `TypeError` (the Python `"source" in item`
membership test on the integer item) instead of returning documents;
`safeDoc` classifies it as unsafe. -/
theorem c2_counterexample :
    normalize_document "now" (.arr [.num 0]) "f" "ts" "rid"
      = .error (.typeError "argument of non-iterable type") ∧
    safeDoc (.arr [.num 0]) = false :=
  ⟨rfl, rfl⟩

/-- C2 amended: the dispatcher selects exactly one branch for every
well-formed JSON value, but it is total only on the payload shapes
captured by `safeDoc` — essentially those whose processed items are all
objects and whose special fields have the shapes the branch reads; on
those it returns zero or more documents, while values such as `[0]` or
an object whose "articles" value is a number raise `TypeError` or
`AttributeError`. -/
theorem c2_normalize_total_on_safe_shapes (now fn ts rid : String) (raw : Json)
    (h : safeDoc raw = true) :
    ∃ ds, normalize_document now raw fn ts rid = .ok ds := by
  cases raw with
  | null => exact ⟨[], rfl⟩
  | bool b => exact ⟨[], rfl⟩
  | num n => exact ⟨[], rfl⟩
  | str s => exact ⟨[], rfl⟩
  | arr xs =>
    have hall : ∀ x ∈ xs, jIsObj x = true := by
      simpa [safeDoc, List.all_eq_true] using h
    exact mapE_ok _ (fun x hx => buildGenericDoc_ok now fn rid (hall x hx))
  | obj kvs =>
    simp only [safeDoc] at h
    simp only [normalize_document]
    by_cases hserp : (hasKey kvs "search_parameters" && hasKey kvs "organic_results")
        = true
    · rw [if_pos hserp] at h ⊢
      simp only [Bool.and_eq_true] at h
      exact normalize_serp_ok now fn rid kvs h.1.1.1 h.1.1.2 h.1.2 h.2
    · rw [if_neg hserp] at h ⊢
      by_cases htel : (hasKey kvs "search_queries" || hasKey kvs "channels_searched")
          = true
      · rw [if_pos htel] at h ⊢
        simp only [Bool.and_eq_true, Bool.or_eq_true] at h
        refine normalize_telegram_ok now fn rid kvs h.1 ?_
        rcases h.2 with ht | hlen
        · exact Or.inl ht
        · exact Or.inr (by simpa [Bool.and_eq_true] using hlen)
      · rw [if_neg htel] at h ⊢
        by_cases hcomp : (hasKey kvs "investigation_phases" &&
            hasKey kvs "critical_assessments") = true
        · rw [if_pos hcomp]
          exact normalize_comprehensive_ok now fn rid kvs
        · rw [if_neg hcomp] at h ⊢
          by_cases hart : hasKey kvs "articles" = true
          · rw [if_pos hart] at h ⊢
            cases ha : jlookup kvs "articles" with
            | none => rw [hasKey, ha] at hart; simp at hart
            | some av =>
              rw [ha] at h
              have hidx : pyIndex (Json.obj kvs) "articles" = .ok av := by
                simp [pyIndex, ha]
              cases av with
              | null => simp [Option.getD] at h
              | bool b => simp [Option.getD] at h
              | num n => simp [Option.getD] at h
              | obj akvs =>
                simp only [Option.getD] at h
                cases hres : jlookup akvs "results" with
                | none =>
                  rw [hres] at h
                  have : hasKey akvs "results" = false := by
                    rw [hasKey, hres]; rfl
                  obtain ⟨d, hd⟩ := @buildGenericDoc_ok now fn rid (.obj kvs) rfl
                  simp only [hidx, bindE, pyIn, this, Bool.false_eq_true,
                    if_false, mapE, hd]
                  exact ⟨_, rfl⟩
                | some resv =>
                  rw [hres] at h
                  have hk : hasKey akvs "results" = true := by
                    rw [hasKey, hres]; rfl
                  obtain ⟨items, hi, ho⟩ := iterableItemsOk_iter h
                  obtain ⟨ds, hds⟩ := mapE_ok _
                    (fun x hx => buildGenericDoc_ok now fn rid (ho x hx))
                  have hidx2 : pyIndex (Json.obj akvs) "results" = .ok resv := by
                    simp [pyIndex, hres]
                  simp only [hidx, bindE, pyIn, hk, if_true, hidx2, hi, hds]
                  exact ⟨ds, rfl⟩
              | str s2 =>
                simp only [Option.getD, Bool.not_eq_true'] at h
                obtain ⟨d, hd⟩ := @buildGenericDoc_ok now fn rid (.obj kvs) rfl
                simp only [hidx, bindE, pyIn, h, Bool.false_eq_true, if_false,
                  mapE, hd]
                exact ⟨_, rfl⟩
              | arr xs2 =>
                simp only [Option.getD, Bool.not_eq_true'] at h
                obtain ⟨d, hd⟩ := @buildGenericDoc_ok now fn rid (.obj kvs) rfl
                simp only [hidx, bindE, pyIn, h, Bool.false_eq_true, if_false,
                  mapE, hd]
                exact ⟨_, rfl⟩
          · rw [if_neg hart]
            obtain ⟨d, hd⟩ := @buildGenericDoc_ok now fn rid (.obj kvs) rfl
            exact ⟨[d], by simp [mapE, hd, bindE]⟩

/-- Witness for C2 (amended) at the empty object, which the dispatcher
treats as one generic item. -/
theorem c2_witness :
    safeDoc (Json.obj []) = true ∧
    ∃ ds, normalize_document "n" (Json.obj []) "f" "ts" "r" = Except.ok ds :=
  ⟨rfl, c2_normalize_total_on_safe_shapes "n" "f" "ts" "r" (Json.obj []) rfl⟩

theorem bindE_ok_elim {x : Except PyErr α} {f : α → Except PyErr β} {b : β}
    (h : bindE x f = .ok b) : ∃ a, x = .ok a ∧ f a = .ok b := by
  cases x with
  | error e => simp [bindE] at h
  | ok a => exact ⟨a, rfl, h⟩

theorem buildOrganicDoc_congr (n1 f1 r1 n2 f2 r2 : String) (sq sl : Json)
    (idx : Nat) (r : Json) {d : Json}
    (h : buildOrganicDoc n1 f1 r1 sq sl idx r = .ok d) :
    ∃ d2, buildOrganicDoc n2 f2 r2 sq sl idx r = .ok d2 ∧ docId d2 = docId d := by
  cases r with
  | obj kvs =>
    simp only [buildOrganicDoc, pyGet, bindE, Except.ok.injEq] at h
    subst h
    exact ⟨_, rfl, rfl⟩
  | null => simp [buildOrganicDoc, pyGet, bindE] at h
  | bool b => simp [buildOrganicDoc, pyGet, bindE] at h
  | num n => simp [buildOrganicDoc, pyGet, bindE] at h
  | str s => simp [buildOrganicDoc, pyGet, bindE] at h
  | arr xs => simp [buildOrganicDoc, pyGet, bindE] at h

theorem buildQuestionDoc_congr (n1 f1 r1 n2 f2 r2 : String) (sq sl : Json)
    (r : Json) {d : Json} (h : buildQuestionDoc n1 f1 r1 sq sl r = .ok d) :
    ∃ d2, buildQuestionDoc n2 f2 r2 sq sl r = .ok d2 ∧ docId d2 = docId d := by
  cases r with
  | obj kvs =>
    simp only [buildQuestionDoc, pyGet, bindE, Except.ok.injEq] at h
    subst h
    exact ⟨_, rfl, rfl⟩
  | null => simp [buildQuestionDoc, pyGet, bindE] at h
  | bool b => simp [buildQuestionDoc, pyGet, bindE] at h
  | num n => simp [buildQuestionDoc, pyGet, bindE] at h
  | str s => simp [buildQuestionDoc, pyGet, bindE] at h
  | arr xs => simp [buildQuestionDoc, pyGet, bindE] at h

theorem buildSearchDoc_congr (n1 f1 r1 n2 f2 r2 : String) (sq sl : Json)
    (r : Json) {d : Json} (h : buildSearchDoc n1 f1 r1 sq sl r = .ok d) :
    ∃ d2, buildSearchDoc n2 f2 r2 sq sl r = .ok d2 ∧ docId d2 = docId d := by
  cases r with
  | obj kvs =>
    simp only [buildSearchDoc, pyGet, bindE, Except.ok.injEq] at h
    subst h
    exact ⟨_, rfl, rfl⟩
  | null => simp [buildSearchDoc, pyGet, bindE] at h
  | bool b => simp [buildSearchDoc, pyGet, bindE] at h
  | num n => simp [buildSearchDoc, pyGet, bindE] at h
  | str s => simp [buildSearchDoc, pyGet, bindE] at h
  | arr xs => simp [buildSearchDoc, pyGet, bindE] at h

theorem buildOrganicDoc_fields (now fn rid : String) (sq sl : Json) (idx : Nat)
    (r : Json) {d : Json} (h : buildOrganicDoc now fn rid sq sl idx r = .ok d) :
    docSourceFile d = some (.str fn) ∧
      ∃ r2, docRawSource d = some r2 ∧
        docId d = some (.str (generate_doc_id (dumps r2))) := by
  cases r with
  | obj kvs =>
    simp only [buildOrganicDoc, pyGet, bindE, Except.ok.injEq] at h
    subst h
    exact ⟨rfl, .obj kvs, rfl, rfl⟩
  | null => simp [buildOrganicDoc, pyGet, bindE] at h
  | bool b => simp [buildOrganicDoc, pyGet, bindE] at h
  | num n => simp [buildOrganicDoc, pyGet, bindE] at h
  | str s => simp [buildOrganicDoc, pyGet, bindE] at h
  | arr xs => simp [buildOrganicDoc, pyGet, bindE] at h

theorem buildQuestionDoc_fields (now fn rid : String) (sq sl : Json)
    (r : Json) {d : Json} (h : buildQuestionDoc now fn rid sq sl r = .ok d) :
    docSourceFile d = some (.str fn) ∧
      ∃ r2, docRawSource d = some r2 ∧
        docId d = some (.str (generate_doc_id (dumps r2))) := by
  cases r with
  | obj kvs =>
    simp only [buildQuestionDoc, pyGet, bindE, Except.ok.injEq] at h
    subst h
    exact ⟨rfl, .obj kvs, rfl, rfl⟩
  | null => simp [buildQuestionDoc, pyGet, bindE] at h
  | bool b => simp [buildQuestionDoc, pyGet, bindE] at h
  | num n => simp [buildQuestionDoc, pyGet, bindE] at h
  | str s => simp [buildQuestionDoc, pyGet, bindE] at h
  | arr xs => simp [buildQuestionDoc, pyGet, bindE] at h

theorem buildSearchDoc_fields (now fn rid : String) (sq sl : Json)
    (r : Json) {d : Json} (h : buildSearchDoc now fn rid sq sl r = .ok d) :
    docSourceFile d = some (.str fn) ∧
      ∃ r2, docRawSource d = some r2 ∧
        docId d = some (.str (generate_doc_id (dumps r2))) := by
  cases r with
  | obj kvs =>
    simp only [buildSearchDoc, pyGet, bindE, Except.ok.injEq] at h
    subst h
    exact ⟨rfl, .obj kvs, rfl, rfl⟩
  | null => simp [buildSearchDoc, pyGet, bindE] at h
  | bool b => simp [buildSearchDoc, pyGet, bindE] at h
  | num n => simp [buildSearchDoc, pyGet, bindE] at h
  | str s => simp [buildSearchDoc, pyGet, bindE] at h
  | arr xs => simp [buildSearchDoc, pyGet, bindE] at h

theorem mapOrganic_congr (n1 f1 r1 n2 f2 r2 : String) (sq sl : Json) :
    ∀ (rs : List Json) (idx : Nat) {ds : List Json},
      mapOrganic n1 f1 r1 sq sl idx rs = .ok ds →
      ∃ ds2, mapOrganic n2 f2 r2 sq sl idx rs = .ok ds2 ∧
        ds2.map docId = ds.map docId := by
  intro rs
  induction rs with
  | nil =>
    intro idx ds h
    simp only [mapOrganic, Except.ok.injEq] at h
    subst h
    exact ⟨[], rfl, rfl⟩
  | cons r rest ih =>
    intro idx ds h
    simp only [mapOrganic] at h
    obtain ⟨d1, hd1, h⟩ := bindE_ok_elim h
    obtain ⟨ds1, hds1, h⟩ := bindE_ok_elim h
    injection h with h
    subst h
    obtain ⟨d2, hd2, hdid⟩ := buildOrganicDoc_congr n1 f1 r1 n2 f2 r2 sq sl idx r hd1
    obtain ⟨ds2, hds2, hmap⟩ := ih (idx + 1) hds1
    exact ⟨d2 :: ds2, by simp only [mapOrganic, hd2, bindE, hds2],
      by simp [hdid, hmap]⟩

theorem mapE_congr (f g : Json → Except PyErr Json)
    (hfg : ∀ r d, f r = .ok d → ∃ d2, g r = .ok d2 ∧ docId d2 = docId d) :
    ∀ {rs ds}, mapE f rs = .ok ds →
      ∃ ds2, mapE g rs = .ok ds2 ∧ ds2.map docId = ds.map docId := by
  intro rs
  induction rs with
  | nil =>
    intro ds h
    simp only [mapE, Except.ok.injEq] at h
    subst h
    exact ⟨[], rfl, rfl⟩
  | cons r rest ih =>
    intro ds h
    simp only [mapE] at h
    obtain ⟨d1, hd1, h⟩ := bindE_ok_elim h
    obtain ⟨ds1, hds1, h⟩ := bindE_ok_elim h
    injection h with h
    subst h
    obtain ⟨d2, hd2, hdid⟩ := hfg r d1 hd1
    obtain ⟨ds2, hds2, hmap⟩ := ih hds1
    exact ⟨d2 :: ds2, by simp only [mapE, hd2, bindE, hds2], by simp [hdid, hmap]⟩

theorem mapE_fields {P : Json → Prop} (f : Json → Except PyErr Json)
    (hf : ∀ r d, f r = .ok d → P d) :
    ∀ {rs ds}, mapE f rs = .ok ds → ∀ d ∈ ds, P d := by
  intro rs
  induction rs with
  | nil =>
    intro ds h d hd
    simp only [mapE, Except.ok.injEq] at h
    subst h
    cases hd
  | cons r rest ih =>
    intro ds h d hd
    simp only [mapE] at h
    obtain ⟨d1, hd1, h⟩ := bindE_ok_elim h
    obtain ⟨ds1, hds1, h⟩ := bindE_ok_elim h
    injection h with h
    subst h
    rcases List.mem_cons.mp hd with hd | hd
    · subst hd; exact hf r d hd1
    · exact ih hds1 d hd

theorem mapOrganic_fields {P : Json → Prop} (now fn rid : String) (sq sl : Json)
    (hf : ∀ idx r d, buildOrganicDoc now fn rid sq sl idx r = .ok d → P d) :
    ∀ (rs : List Json) (idx : Nat) {ds}, mapOrganic now fn rid sq sl idx rs = .ok ds →
      ∀ d ∈ ds, P d := by
  intro rs
  induction rs with
  | nil =>
    intro idx ds h d hd
    simp only [mapOrganic, Except.ok.injEq] at h
    subst h
    cases hd
  | cons r rest ih =>
    intro idx ds h d hd
    simp only [mapOrganic] at h
    obtain ⟨d1, hd1, h⟩ := bindE_ok_elim h
    obtain ⟨ds1, hds1, h⟩ := bindE_ok_elim h
    injection h with h
    subst h
    rcases List.mem_cons.mp hd with hd | hd
    · subst hd; exact hf idx r d hd1
    · exact ih (idx + 1) hds1 d hd

/-- C1: the `_id` of every document built by `normalize_serp_api_data`
is the SHA-256 hex digest of the canonical `sort_keys` JSON
serialization of the doc's own raw source record alone — so normalizing
the same raw payload again, under any other timestamp, file name or
report id, yields documents with identical `_id`s, while each document
carries its own originating `source_file`. -/
theorem c1_content_addressed_identity (raw : Json) (now1 now2 fn1 fn2 rid1 rid2 : String)
    (ds1 : List Json) (h : normalize_serp_api_data now1 raw fn1 rid1 = .ok ds1) :
    (∃ ds2, normalize_serp_api_data now2 raw fn2 rid2 = .ok ds2 ∧
      ds2.map docId = ds1.map docId) ∧
    ∀ d ∈ ds1, docSourceFile d = some (.str fn1) ∧
      ∃ r, docRawSource d = some r ∧
        docId d = some (.str (generate_doc_id (dumps r))) := by
  unfold normalize_serp_api_data at h
  obtain ⟨sp1, hsp1, h⟩ := bindE_ok_elim h
  obtain ⟨sq, hsq, h⟩ := bindE_ok_elim h
  obtain ⟨sp2, hsp2, h⟩ := bindE_ok_elim h
  obtain ⟨sl, hsl, h⟩ := bindE_ok_elim h
  obtain ⟨orv, horv, h⟩ := bindE_ok_elim h
  obtain ⟨organic, horganic, h⟩ := bindE_ok_elim h
  obtain ⟨docs1, hdocs1, h⟩ := bindE_ok_elim h
  obtain ⟨rqv, hrqv, h⟩ := bindE_ok_elim h
  obtain ⟨questions, hquestions, h⟩ := bindE_ok_elim h
  obtain ⟨docs2, hdocs2, h⟩ := bindE_ok_elim h
  obtain ⟨rsv, hrsv, h⟩ := bindE_ok_elim h
  obtain ⟨searches, hsearches, h⟩ := bindE_ok_elim h
  obtain ⟨docs3, hdocs3, h⟩ := bindE_ok_elim h
  injection h with h
  subst h
  rw [hsp1] at hsp2
  injection hsp2 with hsp2e
  subst hsp2e
  constructor
  · obtain ⟨db1, hdb1, hm1⟩ :=
      mapOrganic_congr now1 fn1 rid1 now2 fn2 rid2 sq sl organic 0 hdocs1
    obtain ⟨db2, hdb2, hm2⟩ := mapE_congr
      (buildQuestionDoc now1 fn1 rid1 sq sl) (buildQuestionDoc now2 fn2 rid2 sq sl)
      (fun r d hr => buildQuestionDoc_congr now1 fn1 rid1 now2 fn2 rid2 sq sl r hr)
      hdocs2
    obtain ⟨db3, hdb3, hm3⟩ := mapE_congr
      (buildSearchDoc now1 fn1 rid1 sq sl) (buildSearchDoc now2 fn2 rid2 sq sl)
      (fun r d hr => buildSearchDoc_congr now1 fn1 rid1 now2 fn2 rid2 sq sl r hr)
      hdocs3
    refine ⟨db1 ++ db2 ++ db3, ?_, ?_⟩
    · unfold normalize_serp_api_data
      rw [hsp1]
      simp only [bindE]
      rw [hsq]
      simp only [bindE]
      rw [hsl]
      simp only [bindE]
      rw [horv]
      simp only [bindE]
      rw [horganic]
      simp only [bindE]
      rw [hdb1]
      simp only [bindE]
      rw [hrqv]
      simp only [bindE]
      rw [hquestions]
      simp only [bindE]
      rw [hdb2]
      simp only [bindE]
      rw [hrsv]
      simp only [bindE]
      rw [hsearches]
      simp only [bindE]
      rw [hdb3]
    · simp [List.map_append, hm1, hm2, hm3]
  · intro d hd
    rcases List.mem_append.mp hd with hd12 | hd3
    · rcases List.mem_append.mp hd12 with hd1 | hd2
      · exact mapOrganic_fields now1 fn1 rid1 sq sl
          (fun idx r d2 hr => buildOrganicDoc_fields now1 fn1 rid1 sq sl idx r hr)
          organic 0 hdocs1 d hd1
      · exact mapE_fields (buildQuestionDoc now1 fn1 rid1 sq sl)
          (fun r d2 hr => buildQuestionDoc_fields now1 fn1 rid1 sq sl r hr)
          hdocs2 d hd2
    · exact mapE_fields (buildSearchDoc now1 fn1 rid1 sq sl)
        (fun r d2 hr => buildSearchDoc_fields now1 fn1 rid1 sq sl r hr)
        hdocs3 d hd3

/-- Witness for C1: a SERP payload with one organic result, normalized
under two different timestamps, file names and report ids. -/
theorem c1_witness :
    ∃ ds1, normalize_serp_api_data "n1" c1raw "f1" "r1" = .ok ds1 ∧
      ((∃ ds2, normalize_serp_api_data "n2" c1raw "f2" "r2" = .ok ds2 ∧
          ds2.map docId = ds1.map docId) ∧
        ∀ d ∈ ds1, docSourceFile d = some (.str "f1") ∧
          ∃ r, docRawSource d = some r ∧
            docId d = some (.str (generate_doc_id (dumps r)))) :=
  ⟨_, rfl, c1_content_addressed_identity c1raw "n1" "n2" "f1" "f2" "r1" "r2" _ rfl⟩

end TemplInvest
